import Mathlib

/-!
# VBAN receiver module (`src/modules/module-vban-recv.c`)

A shallow embedding of the transport and lifecycle code of the VBAN receiver:
`make_socket`, `stream_start`, `stream_stop`, `stream_state_changed`,
the data-loop callback for socket readiness, `on_timer_event`, `impl_destroy`
and `pipewire__module_init`.

The C code talks to the kernel and to the PipeWire runtime.  Every such call is
recorded in a trace of `Call`s, and every result the outside world hands back
(return values, `errno`, the datagram read) is an explicit argument of the model.
Log statements are not modelled.
-/

namespace VbanRecv

/-! ## Constants -/

/-- Address family of IPv4 (`AF_INET` of `sys/socket.h`). -/
def AF_INET : Nat := 2

/-- Address family of IPv6 (`AF_INET6` of `sys/socket.h`). -/
def AF_INET6 : Nat := 10

/-- The errno value `EINVAL`. -/
def EINVAL : Nat := 22

/-- Size of `ifr_name` (`IFNAMSIZ` of `net/if.h`). -/
def IFNAMSIZ : Nat := 16

/-- The readiness bit `SPA_IO_IN` (`1 << 0` in `spa/support/loop.h`). -/
def SPA_IO_IN : Nat := 1

/-- The IPv4 wildcard address. -/
def INADDR_ANY : Nat := 0

/-- The IPv6 wildcard address: sixteen zero bytes. -/
def in6addr_any : List Nat := List.replicate 16 0

/-- The constant `ipv4_mcast_mask` local to `make_socket` (line 223). -/
def ipv4_mcast_mask : Nat := 0xe0000000

/-- Size of the receive buffer of the readiness callback (line 165). -/
def BUFFER_SIZE : Nat := 2048

def DEFAULT_CLEANUP_SEC : Nat := 60

def DEFAULT_SOURCE_IP : String := "127.0.0.1"

def DEFAULT_SOURCE_PORT : Nat := 6980

/-! ## Socket addresses -/

/-- A `struct sockaddr_storage` as the module uses it.  For IPv4 the field `s_addr` holds
the address as a 32-bit number in host byte order, that is the value of
`ntohl(sin_addr.s_addr)`; for IPv6 `s6_addr` holds the sixteen address bytes.  The
constructor `other` stands for any family that is neither `AF_INET` nor `AF_INET6`. -/
inductive SockAddr where
  | in4 (sin_port : Nat) (s_addr : Nat)
  | in6 (sin6_port : Nat) (sin6_flowinfo : Nat) (s6_addr : List Nat) (sin6_scope_id : Nat)
  | other (sa_family : Nat)
deriving DecidableEq, Repr

/-- The field `sa_family`. -/
def SockAddr.sa_family : SockAddr → Nat
  | .in4 _ _ => AF_INET
  | .in6 _ _ _ _ => AF_INET6
  | .other f => f

/-! ## Calls into the kernel and the runtime -/

/-- One call made by the module, with the arguments that matter. -/
inductive Call where
  | socket (af : Nat) (ret : Int)
  | setsockopt_timestamp (fd : Int)
  | setsockopt_reuseaddr (fd : Int)
  | ioctl_ifindex (fd : Int) (ifr_name : String)
  | ip_add_membership (fd : Int) (imr_multiaddr : Nat) (imr_ifindex : Nat)
  | ipv6_join_group (fd : Int) (ipv6mr_multiaddr : List Nat) (ipv6mr_interface : Nat)
  | bind (fd : Int) (sa : SockAddr) (salen : Nat)
  | close (fd : Int)
  | recv (fd : Int) (size : Nat)
  | loop_add_io (fd : Int) (ok : Bool)
  | loop_destroy_source (fd : Int)
  | stream_receive_packet (stream : Nat) (buffer : List Nat) (len : Int)
  | schedule_destroy
  | stream_destroy (stream : Nat)
  | core_disconnect (core : Nat)
  | timer_destroy (timer : Nat)
  | release_loop (name : String)
  | free_stream_props (present : Bool)
  | free_props (present : Bool)
  | free_ifname (present : Bool)
  | free_impl
deriving DecidableEq, Repr

/-- What the outside world answers to the calls of `make_socket` and `stream_start`:
the return value of each system call, the `errno` read after a failure, and the
interface index the kernel stores on a successful `SIOCGIFINDEX`.
`have_so_timestamp` says whether `SO_TIMESTAMP` is defined at compile time. -/
structure SysEnv where
  have_so_timestamp : Bool
  socket_ret : Int
  socket_errno : Nat
  timestamp_ret : Int
  timestamp_errno : Nat
  reuseaddr_ret : Int
  reuseaddr_errno : Nat
  ioctl_ret : Int
  ioctl_ifindex : Nat
  join_ret : Int
  join_errno : Nat
  bind_ret : Int
  bind_errno : Nat
  add_io_ok : Bool
  add_io_errno : Nat
deriving DecidableEq, Repr

/-- Result of `make_socket`: the return value, the contents of `*sa` after the call
(the function rewrites the address in place) and the calls made, in order. -/
structure SocketResult where
  ret : Int
  sa : SockAddr
  calls : List Call
deriving DecidableEq, Repr

/-- Lines 250-264 of `make_socket`: the check of the group join result, `bind`, and the
`error:` label.  `res` is the value of the variable `res` on entry. -/
def make_socket_finish (env : SysEnv) (fd : Int) (sa : SockAddr) (salen : Nat) (res : Int)
    (calls : List Call) : SocketResult :=
  if res < 0 then
    ⟨-(env.join_errno : Int), sa, calls ++ [Call.close fd]⟩
  else if env.bind_ret < 0 then
    ⟨-(env.bind_errno : Int), sa, calls ++ [Call.bind fd sa salen, Call.close fd]⟩
  else
    ⟨fd, sa, calls ++ [Call.bind fd sa salen]⟩

/-- Lines 214-248 of `make_socket`: interface lookup and the multicast policy. -/
def make_socket_policy (env : SysEnv) (fd : Int) (sa : SockAddr) (salen : Nat)
    (ifname : Option String) (calls : List Call) : SocketResult :=
  let ifr_ifindex : Nat :=
    match ifname with
    | some _ => if env.ioctl_ret < 0 then 0 else env.ioctl_ifindex
    | none => 0
  let calls1 : List Call :=
    match ifname with
    | some n => calls ++ [Call.ioctl_ifindex fd (n.take (IFNAMSIZ - 1))]
    | none => calls
  match sa with
  | .in4 port addr =>
    if (addr &&& ipv4_mcast_mask) = ipv4_mcast_mask then
      make_socket_finish env fd sa salen env.join_ret
        (calls1 ++ [Call.ip_add_membership fd addr ifr_ifindex])
    else
      make_socket_finish env fd (.in4 port INADDR_ANY) salen 0 calls1
  | .in6 port flow addr scope =>
    if addr.getD 0 0 = 0xff then
      make_socket_finish env fd sa salen env.join_ret
        (calls1 ++ [Call.ipv6_join_group fd addr ifr_ifindex])
    else
      make_socket_finish env fd (.in6 port flow in6addr_any scope) salen 0 calls1
  | .other _ =>
    ⟨-(EINVAL : Int), sa, calls1 ++ [Call.close fd]⟩

/-- The function `make_socket` (lines 189-265). -/
def make_socket (sa : SockAddr) (salen : Nat) (ifname : Option String) (env : SysEnv) :
    SocketResult :=
  let af := sa.sa_family
  let fd := env.socket_ret
  let c0 := [Call.socket af fd]
  if fd < 0 then
    ⟨-(env.socket_errno : Int), sa, c0⟩
  else
    let c1 := if env.have_so_timestamp then c0 ++ [Call.setsockopt_timestamp fd] else c0
    if env.have_so_timestamp && decide (env.timestamp_ret < 0) then
      ⟨-(env.timestamp_errno : Int), sa, c1 ++ [Call.close fd]⟩
    else
      let c2 := c1 ++ [Call.setsockopt_reuseaddr fd]
      if env.reuseaddr_ret < 0 then
        ⟨-(env.reuseaddr_errno : Int), sa, c2 ++ [Call.close fd]⟩
      else
        make_socket_policy env fd sa salen ifname c2

/-! ## Module state -/

/-- A property dictionary (`struct pw_properties`): keys with their string values. -/
abbrev Props := List (String × String)

/-- The registration token of the socket with the data loop (`struct spa_source`). -/
structure Source where
  fd : Int
deriving DecidableEq, Repr

/-- The fields of `struct impl` (lines 129-158) that the modelled functions read or write.
Handles of the runtime (`core`, `timer`, `stream`) are opaque numbers; `none` is `NULL`.
The data loop is represented by its name. -/
structure Impl where
  props : Option Props
  stream_props : Option Props
  data_loop : Option String
  core : Option Nat
  do_disconnect : Bool
  ifname : Option String
  always_process : Bool
  cleanup_interval : Nat
  timer : Option Nat
  stream : Option Nat
  src_port : Nat
  src_addr : SockAddr
  src_len : Nat
  source : Option Source
  receiving : Bool
deriving DecidableEq, Repr

/-- The state outside `struct impl`: the descriptors this module has open, the descriptors
registered as sources with the data loop, and every call made so far. -/
structure Host where
  open_fds : List Int
  io_sources : List Int
  calls : List Call
deriving DecidableEq, Repr

/-- The module together with its surroundings. -/
structure World where
  impl : Impl
  host : Host
deriving DecidableEq, Repr

/-- Effect of one call on the surroundings.  A successful `socket` opens a descriptor and
`close` closes one.  The socket is registered with `close = true` (line 283), so destroying
its source also closes the descriptor. -/
def Host.exec (h : Host) (c : Call) : Host :=
  match c with
  | .socket _ ret =>
    if ret < 0 then { h with calls := h.calls ++ [c] }
    else { h with open_fds := ret :: h.open_fds, calls := h.calls ++ [c] }
  | .close fd => { h with open_fds := h.open_fds.erase fd, calls := h.calls ++ [c] }
  | .loop_add_io fd ok =>
    if ok then { h with io_sources := fd :: h.io_sources, calls := h.calls ++ [c] }
    else { h with calls := h.calls ++ [c] }
  | .loop_destroy_source fd =>
    { open_fds := h.open_fds.erase fd, io_sources := h.io_sources.erase fd,
      calls := h.calls ++ [c] }
  | _ => { h with calls := h.calls ++ [c] }

/-- Effect of a sequence of calls, in order. -/
def Host.emit (h : Host) (cs : List Call) : Host :=
  cs.foldl Host.exec h

/-- What `recv` hands back: its return value and the contents of the buffer.  The datagram
read is the first `ret` bytes of `buffer`. -/
structure RecvOutcome where
  ret : Int
  buffer : List Nat
deriving DecidableEq, Repr

/-! ## Callbacks and lifecycle -/

/-- The readiness callback of the socket (lines 160-187). -/
def on_vban_io (w : World) (fd : Int) (mask : Nat) (r : RecvOutcome) : World :=
  if mask &&& SPA_IO_IN ≠ 0 then
    let h1 := w.host.emit [Call.recv fd BUFFER_SIZE]
    if r.ret < 0 then
      { w with host := h1 }
    else if r.ret < 12 then
      { w with host := h1 }
    else
      let h2 :=
        match w.impl.stream with
        | some s => h1.emit [Call.stream_receive_packet s r.buffer r.ret]
        | none => h1
      { impl := { w.impl with receiving := true }, host := h2 }
  else
    w

/-- The function `stream_start` (lines 267-290).  `make_socket` writes through its address
argument, so `src_addr` is updated with what it leaves there. -/
def stream_start (w : World) (env : SysEnv) : World × Int :=
  match w.impl.source with
  | some _ => (w, 0)
  | none =>
    let r := make_socket w.impl.src_addr w.impl.src_len w.impl.ifname env
    let impl1 := { w.impl with src_addr := r.sa }
    let h1 := w.host.emit r.calls
    let fd := r.ret
    if fd < 0 then
      ({ impl := impl1, host := h1 }, fd)
    else if env.add_io_ok then
      ({ impl := { impl1 with source := some ⟨fd⟩ },
         host := h1.emit [Call.loop_add_io fd true] }, 0)
    else
      ({ impl := { impl1 with source := none },
         host := h1.emit [Call.loop_add_io fd false, Call.close fd] },
       -(env.add_io_errno : Int))

/-- The function `stream_stop` (lines 292-301). -/
def stream_stop (w : World) : World :=
  match w.impl.source with
  | none => w
  | some src =>
    { impl := { w.impl with source := none },
      host := w.host.emit [Call.loop_destroy_source src.fd] }

/-- The stream event `destroy` (lines 303-307). -/
def stream_destroy (w : World) : World :=
  { w with impl := { w.impl with stream := none } }

/-- The stream event `state_changed` (lines 309-323).  `env` answers the system calls of a
start. -/
def stream_state_changed (w : World) (started : Bool) (error : Option String)
    (env : SysEnv) : World :=
  match error with
  | some _ => { w with host := w.host.emit [Call.schedule_destroy] }
  | none =>
    if started then
      (stream_start w env).1
    else if !w.impl.always_process then
      stream_stop w
    else
      w

/-- The timer callback (lines 331-342). -/
def on_timer_event (w : World) (_expirations : Nat) : World :=
  { w with impl := { w.impl with receiving := false } }

/-- The calls of `impl_destroy` (lines 356-377), in program order.  The three `free`
calls at the end are made whether or not the pointer is `NULL`; the flag says whether
there was something to free. -/
def impl_destroy_calls (impl : Impl) : List Call :=
  (match impl.stream with
    | some s => [Call.stream_destroy s]
    | none => []) ++
  (match impl.source with
    | some src => [Call.loop_destroy_source src.fd]
    | none => []) ++
  (match impl.core with
    | some c => if impl.do_disconnect then [Call.core_disconnect c] else []
    | none => []) ++
  (match impl.timer with
    | some t => [Call.timer_destroy t]
    | none => []) ++
  (match impl.data_loop with
    | some l => [Call.release_loop l]
    | none => []) ++
  [Call.free_stream_props impl.stream_props.isSome,
   Call.free_props impl.props.isSome,
   Call.free_ifname impl.ifname.isSome,
   Call.free_impl]

/-- The function `impl_destroy`: afterwards the `struct impl` is gone and only the
surroundings remain. -/
def impl_destroy (w : World) : Host :=
  w.host.emit (impl_destroy_calls w.impl)

/-! ## Properties -/

def PW_KEY_NODE_LOOP_NAME : String := "node.loop.name"
def PW_KEY_NODE_NAME : String := "node.name"
def PW_KEY_NODE_DESCRIPTION : String := "node.description"
def PW_KEY_NODE_GROUP : String := "node.group"
def PW_KEY_NODE_LATENCY : String := "node.latency"
def PW_KEY_NODE_VIRTUAL : String := "node.virtual"
def PW_KEY_NODE_CHANNELNAMES : String := "node.channel-names"
def PW_KEY_NODE_ALWAYS_PROCESS : String := "node.always-process"
def PW_KEY_MEDIA_NAME : String := "media.name"
def PW_KEY_MEDIA_CLASS : String := "media.class"
def PW_KEY_AUDIO_FORMAT : String := "audio.format"
def PW_KEY_AUDIO_RATE : String := "audio.rate"
def PW_KEY_AUDIO_CHANNELS : String := "audio.channels"
def SPA_KEY_AUDIO_POSITION : String := "audio.position"

/-- Modelled from the spec: `pw_properties_get` of the runtime's property dictionary, which
is outside the module.  The value stored under `key`, or `none` for `NULL`. -/
def pw_properties_get (p : Props) (key : String) : Option String :=
  p.lookup key

/-- Modelled from the spec: `pw_properties_set` of the runtime's property dictionary.  It
replaces the value of an existing key and appends a new key otherwise. -/
def pw_properties_set (p : Props) (key value : String) : Props :=
  if (p.lookup key).isSome then
    p.map (fun kv => if kv.1 = key then (key, value) else kv)
  else
    p ++ [(key, value)]

/-- Modelled from the spec: `pw_properties_get_uint32`.  The value of `key` read as an
unsigned 32-bit number by `atou32`, or `deflt` when the key is absent or not a number. -/
def pw_properties_get_uint32 (atou32 : String → Option Nat) (p : Props) (key : String)
    (deflt : Nat) : Nat :=
  match pw_properties_get p key with
  | some str =>
    match atou32 str with
    | some v => v % 2 ^ 32
    | none => deflt
  | none => deflt

/-- Modelled from the spec: `pw_properties_get_bool`.  The value of `key` read as a
boolean by `atob`, or `deflt` when the key is absent. -/
def pw_properties_get_bool (atob : String → Bool) (p : Props) (key : String)
    (deflt : Bool) : Bool :=
  match pw_properties_get p key with
  | some str => atob str
  | none => deflt

/-- The function `copy_props` (lines 407-414).  The first argument is `impl->stream_props`;
the result is its new contents. -/
def copy_props (stream_props : Props) (props : Props) (key : String) : Props :=
  match pw_properties_get props key with
  | some str =>
    match pw_properties_get stream_props key with
    | none => pw_properties_set stream_props key str
    | some _ => stream_props
  | none => stream_props

/-- The keys handed to `copy_props` by `pipewire__module_init`, in the order of
lines 463-481. -/
def copied_keys : List String :=
  [PW_KEY_NODE_LOOP_NAME, PW_KEY_AUDIO_FORMAT, PW_KEY_AUDIO_RATE, PW_KEY_AUDIO_CHANNELS,
   SPA_KEY_AUDIO_POSITION, PW_KEY_NODE_NAME, PW_KEY_NODE_DESCRIPTION, PW_KEY_NODE_GROUP,
   PW_KEY_NODE_LATENCY, PW_KEY_NODE_VIRTUAL, PW_KEY_NODE_CHANNELNAMES, PW_KEY_MEDIA_NAME,
   PW_KEY_MEDIA_CLASS, "net.mtu", "sess.media", "sess.name", "sess.min-ptime",
   "sess.max-ptime", "sess.latency.msec"]

/-! ## Module initialisation -/

/-- What the runtime answers during `pipewire__module_init`.
* `calloc_ok`: the allocation of `struct impl` succeeded.
* `args`: the dictionary `pw_properties_new_string(args)` builds from the module
  arguments, `none` if it returns `NULL`; `stream_props_ok`: `pw_properties_new`
  succeeded.
* `parse_object`: the key/value pairs `pw_properties_update_string` finds in the value
  of `stream.props`.
* `atou32`, `atob`: how a property value is read as a number or a boolean.
* `net_parse_address`: `pw_net_parse_address` applied to the address text and the
  port: its return value and the address and length it stores on success.
* `context_core`, `connect_core`, `timer`, `stream`: the handles returned by
  `pw_context_get_object`, `pw_context_connect`, `pw_loop_add_timer` and
  `vban_stream_new`.
The `errno` fields are the values read after the corresponding failure. -/
structure InitEnv where
  calloc_ok : Bool
  calloc_errno : Nat
  args : Option Props
  stream_props_ok : Bool
  props_errno : Nat
  data_loop_name : String
  host_name : String
  parse_object : String → Props
  atou32 : String → Option Nat
  atob : String → Bool
  net_parse_address : String → Nat → Int × SockAddr × Nat
  context_core : Option Nat
  connect_core : Option Nat
  connect_errno : Nat
  timer : Option Nat
  timer_errno : Nat
  stream : Option Nat
  stream_errno : Nat

/-- Result of `pipewire__module_init`: the return value, the module state it leaves alive
(`none` when the state was never allocated or was destroyed at `out:`), and the
surroundings. -/
structure InitResult where
  ret : Int
  impl : Option Impl
  host : Host
deriving DecidableEq, Repr

/-- A `struct impl` fresh from `calloc`: every field zero. -/
def Impl.zero : Impl :=
  { props := none, stream_props := none, data_loop := none, core := none,
    do_disconnect := false, ifname := none, always_process := false, cleanup_interval := 0,
    timer := none, stream := none, src_port := 0, src_addr := .other 0, src_len := 0,
    source := none, receiving := false }

/-- Surroundings of a module that has not made any call yet. -/
def Host.empty : Host :=
  { open_fds := [], io_sources := [], calls := [] }

/-- The label `out:` of `pipewire__module_init` (lines 555-557). -/
def module_init_out (impl : Impl) (res : Int) : InitResult :=
  ⟨res, none, impl_destroy ⟨impl, Host.empty⟩⟩

/-- Lines 498-554 of `pipewire__module_init`: everything after the source address has
been parsed. -/
def module_init_connect (env : InitEnv) (impl : Impl) (props stream_props : Props) :
    InitResult :=
  let impl1 := { impl with
    always_process := pw_properties_get_bool env.atob stream_props
      PW_KEY_NODE_ALWAYS_PROCESS true,
    cleanup_interval := pw_properties_get_uint32 env.atou32 props "cleanup.sec"
      DEFAULT_CLEANUP_SEC }
  let impl2 :=
    match env.context_core with
    | some c => { impl1 with core := some c }
    | none => { impl1 with core := env.connect_core, do_disconnect := true }
  match impl2.core with
  | none => module_init_out impl2 (-(env.connect_errno : Int))
  | some _ =>
    match env.timer with
    | none => module_init_out impl2 (-(env.timer_errno : Int))
    | some t =>
      let impl3 := { impl2 with timer := some t }
      match env.stream with
      | none => module_init_out impl3 (-(env.stream_errno : Int))
      | some s => ⟨0, some { impl3 with stream := some s }, Host.empty⟩

/-- Lines 448-458 of `pipewire__module_init`: the loop name and the defaults of the node
name, the node description and the media name are stored in `props`. -/
def module_init_props (env : InitEnv) (props0 : Props) : Props :=
  let sess_name : String :=
    match pw_properties_get props0 "sess.name" with
    | some n => n
    | none => env.host_name
  let props1 := pw_properties_set props0 PW_KEY_NODE_LOOP_NAME env.data_loop_name
  let props2 :=
    if (pw_properties_get props1 PW_KEY_NODE_NAME).isNone then
      pw_properties_set props1 PW_KEY_NODE_NAME ("vban_session." ++ sess_name)
    else props1
  let props3 :=
    if (pw_properties_get props2 PW_KEY_NODE_DESCRIPTION).isNone then
      pw_properties_set props2 PW_KEY_NODE_DESCRIPTION sess_name
    else props2
  if (pw_properties_get props3 PW_KEY_MEDIA_NAME).isNone then
    pw_properties_set props3 PW_KEY_MEDIA_NAME ("VBAN Session with " ++ sess_name)
  else props3

/-- Lines 460-481 of `pipewire__module_init`: `stream_props` receives the contents of
`stream.props` and then the copied keys.  `sp0` is `stream_props` on entry. -/
def module_init_stream_props (env : InitEnv) (props : Props) (sp0 : Props) : Props :=
  let sp1 : Props :=
    match pw_properties_get props "stream.props" with
    | some str =>
      (env.parse_object str).foldl (fun sp kv => pw_properties_set sp kv.1 kv.2) sp0
    | none => sp0
  copied_keys.foldl (fun sp key => copy_props sp props key) sp1

/-- Lines 483-496 of `pipewire__module_init`, followed by the rest of the function: the
interface name, the source port and the source address.  `res` is the variable `res`,
which no statement has assigned since its initialisation. -/
def module_init_source (env : InitEnv) (impl0 : Impl) (props stream_props : Props)
    (res : Int) : InitResult :=
  let src_port := pw_properties_get_uint32 env.atou32 props "source.port"
    DEFAULT_SOURCE_PORT % 2 ^ 16
  let impl1 := { impl0 with
    props := some props, stream_props := some stream_props,
    data_loop := some env.data_loop_name,
    ifname := pw_properties_get props "local.ifname",
    src_port := src_port }
  if src_port = 0 then
    module_init_out impl1 res
  else
    let str : String :=
      match pw_properties_get props "source.ip" with
      | some s => s
      | none => DEFAULT_SOURCE_IP
    let parsed := env.net_parse_address str src_port
    if parsed.1 < 0 then
      module_init_out impl1 parsed.1
    else
      module_init_connect env
        { impl1 with src_addr := parsed.2.1, src_len := parsed.2.2 } props stream_props

/-- The function `pipewire__module_init` (lines 416-558). -/
def pipewire__module_init (env : InitEnv) : InitResult :=
  let res : Int := 0
  if !env.calloc_ok then
    ⟨-(env.calloc_errno : Int), none, Host.empty⟩
  else
    let stream_props0 : Option Props := if env.stream_props_ok then some [] else none
    let impl0 := { Impl.zero with props := env.args, stream_props := stream_props0 }
    match env.args, stream_props0 with
    | some props0, some sp0 =>
      let props := module_init_props env props0
      module_init_source env impl0 props (module_init_stream_props env props sp0) res
    | _, _ => module_init_out impl0 (-(env.props_errno : Int))

/-- The `errno` read after a failed call is positive, as POSIX requires. -/
def SysEnv.errno_pos (env : SysEnv) : Prop :=
  0 < env.socket_errno ∧ 0 < env.timestamp_errno ∧ 0 < env.reuseaddr_errno ∧
  0 < env.join_errno ∧ 0 < env.bind_errno ∧ 0 < env.add_io_errno

instance (env : SysEnv) : Decidable env.errno_pos := by
  unfold SysEnv.errno_pos
  infer_instance

/-! ## Runs of the module -/

/-- What can happen to a loaded module: a `state_changed` event of the stream (with the
answers to the system calls of a start), a readiness notification of the socket, a firing
of the timer. -/
inductive Event where
  | state_changed (started : Bool) (error : Option String) (env : SysEnv)
  | readable (fd : Int) (mask : Nat) (r : RecvOutcome)
  | timer (expirations : Nat)
deriving DecidableEq, Repr

/-- The callback that handles an event. -/
def step (w : World) : Event → World
  | .state_changed started error env => stream_state_changed w started error env
  | .readable fd mask r => on_vban_io w fd mask r
  | .timer expirations => on_timer_event w expirations

/-- The module after a sequence of events. -/
def run (w : World) (evs : List Event) : World :=
  evs.foldl step w

/-- Every `errno` the event hands to the module is positive. -/
def Event.errno_pos : Event → Prop
  | .state_changed _ _ env => env.errno_pos
  | _ => True

instance (e : Event) : Decidable e.errno_pos := by
  cases e <;> unfold Event.errno_pos <;> infer_instance

/-- The sockets of the module are consistent: the open descriptors are the registered
loop sources, and these are exactly what the socket handle holds (nothing when it is
`NULL`, the one descriptor otherwise). -/
def World.sockets_ok (w : World) : Prop :=
  w.host.open_fds = w.host.io_sources ∧
  w.host.io_sources = (w.impl.source.map Source.fd).toList

/-! ## Example inputs -/

/-- Every system call succeeds; `socket` returns descriptor 5 and the interface has
index 3.  The `errno` fields are not read when nothing fails. -/
def SysEnv.ok : SysEnv :=
  { have_so_timestamp := true, socket_ret := 5, socket_errno := 24,
    timestamp_ret := 0, timestamp_errno := 92, reuseaddr_ret := 0, reuseaddr_errno := 92,
    ioctl_ret := 0, ioctl_ifindex := 3, join_ret := 0, join_errno := 19,
    bind_ret := 0, bind_errno := 98, add_io_ok := true, add_io_errno := 12 }

/-- The address 240.0.0.1, port 6980. -/
def addr_240_0_0_1 : SockAddr := .in4 6980 0xf0000001

/-- The address 255.255.255.255, port 6980. -/
def addr_broadcast : SockAddr := .in4 6980 0xffffffff

/-- The multicast policy in the words of the specification (section 4.2): an IPv4 address
is multicast when its top 4 bits are `1110`, an IPv6 address when its first byte
is `0xFF`.  This is the specification side of the comparison with `make_socket`. -/
def spec_is_multicast : SockAddr → Bool
  | .in4 _ addr => addr / 2 ^ 28 % 16 == 0b1110
  | .in6 _ _ addr _ => addr.getD 0 0 == 0xff
  | .other _ => false

/-- The wildcard address of the family of `sa`, with the port and the other fields of
`sa`. -/
def wildcard_of : SockAddr → SockAddr
  | .in4 port _ => .in4 port INADDR_ANY
  | .in6 port flow _ scope => .in6 port flow in6addr_any scope
  | .other f => .other f

/-- The call is a `bind`. -/
def Call.is_bind : Call → Bool
  | .bind _ _ _ => true
  | _ => false

/-- The call is an invocation of the stream's receive entry point. -/
def Call.is_receive_packet : Call → Bool
  | .stream_receive_packet _ _ _ => true
  | _ => false

/-- The call is a `close`. -/
def Call.is_close : Call → Bool
  | .close _ => true
  | _ => false

/-- The call neither opens nor closes a descriptor and neither adds nor removes a loop
source. -/
def Call.is_neutral : Call → Bool
  | .socket _ _ => false
  | .close _ => false
  | .loop_add_io _ _ => false
  | .loop_destroy_source _ => false
  | _ => true

/-- The call is a multicast group join. -/
def Call.is_join : Call → Bool
  | .ip_add_membership _ _ _ => true
  | .ipv6_join_group _ _ _ => true
  | _ => false

/-- The interface index of a group join in the words of the specification (section 4.2):
the index of the named interface, and 0 ("any") when no interface is named or it cannot
be resolved. -/
def spec_ifindex (ifname : Option String) (env : SysEnv) : Nat :=
  match ifname with
  | none => 0
  | some _ => if 0 ≤ env.ioctl_ret then env.ioctl_ifindex else 0

/-- The group join the specification expects for a multicast address `sa` on descriptor
`fd` and interface `ifindex`. -/
def spec_join (fd : Int) (sa : SockAddr) (ifindex : Nat) : List Call :=
  match sa with
  | .in4 _ a => [Call.ip_add_membership fd a ifindex]
  | .in6 _ _ a _ => [Call.ipv6_join_group fd a ifindex]
  | .other _ => []

/-- A runtime in which every step of the initialisation succeeds, for the module
arguments `args`.  Numbers are read from the decimal texts listed, booleans from `true`
and `1`; the address parser knows the three addresses used below. -/
def InitEnv.good (args : Props) : InitEnv :=
  { calloc_ok := true, calloc_errno := 12,
    args := some args, stream_props_ok := true, props_errno := 12,
    data_loop_name := "data-loop.0", host_name := "host",
    parse_object := fun str =>
      if str = "{ node.always-process = false }" then [("node.always-process", "false")]
      else [],
    atou32 := fun str =>
      if str = "0" then some 0
      else if str = "6980" then some 6980
      else if str = "65536" then some 65536
      else if str = "72516" then some 72516
      else none,
    atob := fun str => str == "true" || str == "1",
    net_parse_address := fun str port =>
      if str = "127.0.0.1" then (0, .in4 port 0x7f000001, 16)
      else if str = "10.0.0.5" then (0, .in4 port 0x0a000005, 16)
      else if str = "239.1.1.1" then (0, .in4 port 0xef010101, 16)
      else (-(EINVAL : Int), .other 0, 0),
    context_core := some 1, connect_core := none, connect_errno := 111,
    timer := some 2, timer_errno := 12,
    stream := some 3, stream_errno := 12 }

/-- The module state after a successful initialisation with the arguments `args`. -/
def loaded (args : Props) : Impl :=
  ((pipewire__module_init (InitEnv.good args)).impl).getD Impl.zero

/-- The bind of a started socket fails. -/
def SysEnv.bind_fails : SysEnv :=
  { SysEnv.ok with bind_ret := -1 }

/-- Module arguments that switch `always_process` off through `stream.props`. -/
def args_stop_closes : Props :=
  [("stream.props", "{ node.always-process = false }")]

/-- A Listening state: the module loaded with the arguments `args`, its socket open on
descriptor 5 and registered with the loop. -/
def listening (args : Props) : World :=
  { impl := { loaded args with source := some ⟨5⟩ },
    host := { open_fds := [5], io_sources := [5], calls := [] } }

/-- A run: the stream starts twice, a datagram of 16 bytes arrives, the timer fires, the
stream stops, a start fails, and the stream reports an error. -/
def example_events : List Event :=
  [Event.state_changed true none SysEnv.ok,
   Event.state_changed true none SysEnv.ok,
   Event.readable 5 SPA_IO_IN ⟨16, List.replicate 16 0⟩,
   Event.timer 1,
   Event.state_changed false none SysEnv.ok,
   Event.state_changed true none SysEnv.bind_fails,
   Event.state_changed false (some "error") SysEnv.ok]

/-- The call releases one of the five resources of the teardown order of section 4.5: the
stream handle, the socket registration, the timer, the data loop, the property
storage. -/
def Call.is_release : Call → Bool
  | .stream_destroy _ => true
  | .loop_destroy_source _ => true
  | .timer_destroy _ => true
  | .release_loop _ => true
  | .free_stream_props _ => true
  | .free_props _ => true
  | _ => false

/-- The teardown order in the words of the specification (section 4.5), for the resources
present in `impl`: stream handle, socket, timer, acquired loop, then the property
storage. -/
def spec_release_order (impl : Impl) : List Call :=
  (impl.stream.toList.map Call.stream_destroy) ++
  (impl.source.toList.map (fun src => Call.loop_destroy_source src.fd)) ++
  (impl.timer.toList.map Call.timer_destroy) ++
  (impl.data_loop.toList.map Call.release_loop) ++
  [Call.free_stream_props impl.stream_props.isSome, Call.free_props impl.props.isSome]

/-- The port field of a socket address, `none` for a family without one. -/
def SockAddr.port : SockAddr → Option Nat
  | .in4 sin_port _ => some sin_port
  | .in6 sin6_port _ _ _ => some sin6_port
  | .other _ => none

/-- The `errno` read after a failed step of the initialisation is positive. -/
def InitEnv.errno_pos (env : InitEnv) : Prop :=
  0 < env.connect_errno ∧ 0 < env.timer_errno ∧ 0 < env.stream_errno

instance (env : InitEnv) : Decidable env.errno_pos := by
  unfold InitEnv.errno_pos
  infer_instance

/-- The contract of the address resolver in the words of the specification (section 4.1):
the socket address it produces for a text and a port carries that port. -/
def InitEnv.resolver_keeps_port (env : InitEnv) : Prop :=
  ∀ (str : String) (port : Nat), 0 ≤ (env.net_parse_address str port).1 →
    (env.net_parse_address str port).2.1.port = some port

/-- The text handed to the address resolver: the value of `source.ip`, or the default
(lines 491-492). -/
def source_ip_text (props : Props) : String :=
  match pw_properties_get props "source.ip" with
  | some s => s
  | none => DEFAULT_SOURCE_IP

/-- The kernel refuses a group join for an address that is not a multicast address
(`IP_ADD_MEMBERSHIP` and `IPV6_JOIN_GROUP` return `EINVAL` for such a group): if `sa` is
not multicast, the answer `env` holds for the join is a failure. -/
def SysEnv.rejects_join_of (env : SysEnv) (sa : SockAddr) : Prop :=
  spec_is_multicast sa = false → env.join_ret < 0

instance (env : SysEnv) (sa : SockAddr) : Decidable (env.rejects_join_of sa) := by
  unfold SysEnv.rejects_join_of
  infer_instance

/-- Every system call succeeds except a group join, which the kernel refuses. -/
def SysEnv.join_refused : SysEnv :=
  { SysEnv.ok with join_ret := -1, join_errno := 22 }

/-- The address 10.0.0.5, port 6980. -/
def addr_10_0_0_5 : SockAddr := .in4 6980 0x0a000005

/-- The address 239.1.1.1, port 6980. -/
def addr_239_1_1_1 : SockAddr := .in4 6980 0xef010101

/-- The address is a resolved IPv4 or IPv6 address: its family is `AF_INET` with a 32-bit
address, or `AF_INET6`. -/
def SockAddr.resolved : SockAddr → Prop
  | .in4 _ a => a < 2 ^ 32
  | .in6 _ _ _ _ => True
  | .other _ => False

instance (sa : SockAddr) : Decidable sa.resolved := by
  cases sa <;> unfold SockAddr.resolved <;> infer_instance

/-! # Theorems -/

/-! ## Multicast policy of `make_socket` -/

/-- Bits 29, 30 and 31 are the bits of `ipv4_mcast_mask`. -/
theorem ipv4_mcast_mask_testBit (j : Nat) :
    ipv4_mcast_mask.testBit j = (decide (29 ≤ j) && decide (j < 32)) := by
  have h : ipv4_mcast_mask = (2 ^ 3 - 1) <<< 29 := by decide
  rw [h, Nat.testBit_shiftLeft, Nat.testBit_two_pow_sub_one]
  by_cases h1 : 29 ≤ j <;> by_cases h2 : j < 32 <;> simp [h1, h2] <;> omega

/-- The test of line 225 looks at the top 3 bits of a 32-bit address only: it holds
exactly when they are `111`, that is for 224.0.0.0 and everything above. -/
theorem ipv4_mcast_test_iff (a : Nat) (ha : a < 2 ^ 32) :
    (a &&& ipv4_mcast_mask) = ipv4_mcast_mask ↔ a / 2 ^ 29 = 7 := by
  have hb : ∀ i, a.testBit i = decide (a / 2 ^ i % 2 = 1) := fun i => Nat.testBit_to_div_mod
  constructor
  · intro h
    have t (j : Nat) : (a &&& ipv4_mcast_mask).testBit j = ipv4_mcast_mask.testBit j := by
      rw [h]
    have h29 := t 29
    have h30 := t 30
    have h31 := t 31
    simp only [Nat.testBit_and, ipv4_mcast_mask_testBit, hb] at h29 h30 h31
    simp at h29 h30 h31
    omega
  · intro h
    apply Nat.eq_of_testBit_eq
    intro j
    rw [Nat.testBit_and, ipv4_mcast_mask_testBit]
    by_cases h1 : 29 ≤ j <;> by_cases h2 : j < 32 <;> simp [h1, h2]
    rw [hb]
    have : j = 29 ∨ j = 30 ∨ j = 31 := by omega
    rcases this with rfl | rfl | rfl <;> simp <;> omega

/-- Outside 240.0.0.0/4 the test of line 225 agrees with the multicast policy of the
specification. -/
theorem ipv4_mcast_test_eq_spec (port a : Nat) (ha : a < 2 ^ 32) (he : a / 2 ^ 28 ≠ 15) :
    (a &&& ipv4_mcast_mask) = ipv4_mcast_mask ↔ spec_is_multicast (.in4 port a) = true := by
  rw [ipv4_mcast_test_iff a ha]
  simp only [spec_is_multicast, beq_iff_eq]
  omega

/-- C2: the test of `make_socket` accepts 240.0.0.1, whose top 4 bits are `1111` and
not `1110`: the group join is issued for it and the address is bound unrewritten. -/
theorem make_socket_joins_for_240_0_0_1 :
    spec_is_multicast addr_240_0_0_1 = false ∧
    (make_socket addr_240_0_0_1 16 none SysEnv.ok).calls =
      [Call.socket AF_INET 5, Call.setsockopt_timestamp 5, Call.setsockopt_reuseaddr 5,
       Call.ip_add_membership 5 0xf0000001 0, Call.bind 5 addr_240_0_0_1 16] ∧
    (make_socket addr_240_0_0_1 16 none SysEnv.ok).sa = addr_240_0_0_1 := by
  decide

/-- A non-negative result of the tail of `make_socket` is the descriptor: the join
result was not negative, `bind` was called once with the address, and nothing else was
added to the calls. -/
theorem make_socket_finish_ok (env : SysEnv) (fd : Int) (sa : SockAddr) (salen : Nat)
    (res : Int) (calls : List Call) (herr : env.errno_pos)
    (hok : 0 ≤ (make_socket_finish env fd sa salen res calls).ret) :
    make_socket_finish env fd sa salen res calls =
      ⟨fd, sa, calls ++ [Call.bind fd sa salen]⟩ := by
  obtain ⟨_, _, _, h4, h5, _⟩ := herr
  unfold make_socket_finish at hok ⊢
  split_ifs at hok ⊢ with c1 c2
  · simp only at hok; omega
  · simp only at hok; omega
  · rfl

/-- A non-negative result of `make_socket` comes from its policy part, entered after the
three calls that create and configure the socket. -/
theorem make_socket_ok_policy (sa : SockAddr) (salen : Nat) (ifname : Option String)
    (env : SysEnv) (herr : env.errno_pos)
    (hok : 0 ≤ (make_socket sa salen ifname env).ret) :
    0 ≤ env.socket_ret ∧
    make_socket sa salen ifname env =
      make_socket_policy env env.socket_ret sa salen ifname
        (([Call.socket sa.sa_family env.socket_ret] ++
          if env.have_so_timestamp then [Call.setsockopt_timestamp env.socket_ret] else []) ++
          [Call.setsockopt_reuseaddr env.socket_ret]) := by
  obtain ⟨h1, h2, h3, _, _, _⟩ := herr
  unfold make_socket at hok ⊢
  simp only at hok ⊢
  split_ifs at hok ⊢ with c1 c2 c3 c4 c5
  all_goals first
    | (exfalso; simp only at hok; omega)
    | (refine ⟨by omega, ?_⟩; simp_all)

/-- The calls `make_socket` makes before its policy part are neither joins nor binds. -/
theorem make_socket_prefix_filter (af : Nat) (fd : Int) (b : Bool) (n : Option String) :
    let calls := (([Call.socket af fd] ++
      if b then [Call.setsockopt_timestamp fd] else []) ++ [Call.setsockopt_reuseaddr fd])
    let calls1 := match n with
      | some n => calls ++ [Call.ioctl_ifindex fd (n.take (IFNAMSIZ - 1))]
      | none => calls
    calls1.filter Call.is_join = [] ∧ calls1.filter Call.is_bind = [] := by
  cases b <;> cases n <;> simp [Call.is_join, Call.is_bind]

/-- The interface index `make_socket` puts into a join request is the one the
specification asks for. -/
theorem make_socket_ifindex_eq_spec (ifname : Option String) (env : SysEnv) :
    (match ifname with
      | some _ => if env.ioctl_ret < 0 then 0 else env.ioctl_ifindex
      | none => 0) = spec_ifindex ifname env := by
  unfold spec_ifindex
  cases ifname with
  | none => rfl
  | some n => simp only; split_ifs <;> first | rfl | omega

/-- Outside 240.0.0.0/4 a successful `make_socket` follows the policy of the
specification.  A unicast address is rewritten to the wildcard address of its family, that
is what `bind` receives, and no group join is issued.  For a multicast address exactly
one join is issued, for that address and the resolved interface index, and `bind`
receives the address as given. -/
theorem make_socket_policy_outside_class_e (sa : SockAddr) (salen : Nat)
    (ifname : Option String) (env : SysEnv)
    (hsa : match sa with
      | .in4 _ a => a < 2 ^ 32 ∧ a / 2 ^ 28 ≠ 15
      | .in6 _ _ _ _ => True
      | .other _ => False)
    (herr : env.errno_pos)
    (hok : 0 ≤ (make_socket sa salen ifname env).ret) :
    (make_socket sa salen ifname env).ret = env.socket_ret ∧
    (spec_is_multicast sa = false →
      (make_socket sa salen ifname env).sa = wildcard_of sa ∧
      (make_socket sa salen ifname env).calls.filter Call.is_join = [] ∧
      (make_socket sa salen ifname env).calls.filter Call.is_bind =
        [Call.bind env.socket_ret (wildcard_of sa) salen]) ∧
    (spec_is_multicast sa = true →
      (make_socket sa salen ifname env).sa = sa ∧
      (make_socket sa salen ifname env).calls.filter Call.is_join =
        spec_join env.socket_ret sa (spec_ifindex ifname env) ∧
      (make_socket sa salen ifname env).calls.filter Call.is_bind =
        [Call.bind env.socket_ret sa salen]) := by
  obtain ⟨hfd, heq⟩ := make_socket_ok_policy sa salen ifname env herr hok
  rw [heq] at hok ⊢
  have hpre := make_socket_prefix_filter sa.sa_family env.socket_ret env.have_so_timestamp
    ifname
  simp only at hpre
  obtain ⟨hj, hb⟩ := hpre
  have hidx := make_socket_ifindex_eq_spec ifname env
  cases sa with
  | other f => exact absurd hsa (by simp)
  | in4 port a =>
    have hm := ipv4_mcast_test_eq_spec port a hsa.1 hsa.2
    unfold make_socket_policy at hok ⊢
    simp only at hok ⊢
    by_cases hc : (a &&& ipv4_mcast_mask) = ipv4_mcast_mask
    · have hs : spec_is_multicast (.in4 port a) = true := hm.mp hc
      rw [if_pos hc] at hok ⊢
      rw [make_socket_finish_ok _ _ _ _ _ _ herr hok]
      simp only [hs, List.filter_append, hj, hb, spec_join]
      simp [Call.is_join, Call.is_bind]
      exact hidx
    · have hs : spec_is_multicast (.in4 port a) = false := by
        cases h : spec_is_multicast (.in4 port a)
        · rfl
        · exact absurd (hm.mpr h) hc
      rw [if_neg hc] at hok ⊢
      rw [make_socket_finish_ok _ _ _ _ _ _ herr hok]
      simp only [hs, List.filter_append, hj, hb, wildcard_of]
      simp [Call.is_join, Call.is_bind]
  | in6 port flow a scope =>
    unfold make_socket_policy at hok ⊢
    simp only at hok ⊢
    by_cases hc : a.getD 0 0 = 0xff
    · have hs : spec_is_multicast (.in6 port flow a scope) = true := by
        unfold spec_is_multicast
        simp only [beq_iff_eq]
        exact hc
      rw [if_pos hc] at hok ⊢
      rw [make_socket_finish_ok _ _ _ _ _ _ herr hok]
      simp only [hs, List.filter_append, hj, hb, spec_join]
      simp [Call.is_join, Call.is_bind]
      exact hidx
    · have hs : spec_is_multicast (.in6 port flow a scope) = false := by
        unfold spec_is_multicast
        simp only [beq_eq_false_iff_ne]
        exact hc
      rw [if_neg hc] at hok ⊢
      rw [make_socket_finish_ok _ _ _ _ _ _ herr hok]
      simp only [hs, List.filter_append, hj, hb, wildcard_of]
      simp [Call.is_join, Call.is_bind]

/-! ## Packet ingest -/

/-- C4: when the datagram read is shorter than 12 bytes, the readiness callback leaves
the module state, the open descriptors and the registered sources as they were, and
adds no call of the stream's receive entry point: the only call it may add is the
`recv` itself. -/
theorem on_vban_io_short_packet (w : World) (fd : Int) (mask : Nat) (r : RecvOutcome)
    (hlo : 0 ≤ r.ret) (hhi : r.ret < 12) :
    (on_vban_io w fd mask r).impl = w.impl ∧
    (on_vban_io w fd mask r).impl.receiving = w.impl.receiving ∧
    (on_vban_io w fd mask r).host.open_fds = w.host.open_fds ∧
    (on_vban_io w fd mask r).host.io_sources = w.host.io_sources ∧
    (on_vban_io w fd mask r).host.calls =
      w.host.calls ++ (if mask &&& SPA_IO_IN ≠ 0 then [Call.recv fd BUFFER_SIZE] else []) ∧
    ∀ s b l, Call.stream_receive_packet s b l ∈ (on_vban_io w fd mask r).host.calls →
      Call.stream_receive_packet s b l ∈ w.host.calls := by
  unfold on_vban_io
  by_cases hm : mask &&& SPA_IO_IN ≠ 0
  · have h12 : ¬ (12 ≤ r.ret) := by omega
    simp [hm, hhi, Host.emit, Host.exec]
  · simp [hm]

/-- A short read (here 11 bytes) with a stream attached and the flag clear. -/
theorem on_vban_io_short_packet_witness :
    (on_vban_io ⟨{ Impl.zero with stream := some 1 }, Host.empty⟩ 5 SPA_IO_IN
        ⟨11, List.replicate 11 0⟩).impl.receiving = false ∧
    (on_vban_io ⟨{ Impl.zero with stream := some 1 }, Host.empty⟩ 5 SPA_IO_IN
        ⟨11, List.replicate 11 0⟩).host.calls = [Call.recv 5 BUFFER_SIZE] :=
  have h := on_vban_io_short_packet ⟨{ Impl.zero with stream := some 1 }, Host.empty⟩ 5
    SPA_IO_IN ⟨11, List.replicate 11 0⟩ (by decide) (by decide)
  ⟨h.2.1, h.2.2.2.2.1⟩

/-- C5: when the datagram read has length `n` with `12 ≤ n ≤ 2048`, the readiness
callback sets the Activity Flag and changes nothing else in the module state.  With a
stream attached it calls the receive entry point exactly once, after the `recv`, with
the buffer and `n`; with no stream attached it calls nothing besides the `recv`. -/
theorem on_vban_io_valid_packet (w : World) (fd : Int) (mask : Nat) (r : RecvOutcome)
    (hm : mask &&& SPA_IO_IN ≠ 0) (hlo : 12 ≤ r.ret) (_hhi : r.ret ≤ BUFFER_SIZE) :
    (on_vban_io w fd mask r).impl = { w.impl with receiving := true } ∧
    (on_vban_io w fd mask r).impl.receiving = true ∧
    (on_vban_io w fd mask r).host.open_fds = w.host.open_fds ∧
    (on_vban_io w fd mask r).host.io_sources = w.host.io_sources ∧
    (∀ s, w.impl.stream = some s →
      (on_vban_io w fd mask r).host.calls =
        w.host.calls ++ [Call.recv fd BUFFER_SIZE, Call.stream_receive_packet s r.buffer r.ret] ∧
      ((on_vban_io w fd mask r).host.calls.filter Call.is_receive_packet).length =
        (w.host.calls.filter Call.is_receive_packet).length + 1) ∧
    (w.impl.stream = none →
      (on_vban_io w fd mask r).host.calls = w.host.calls ++ [Call.recv fd BUFFER_SIZE]) := by
  unfold on_vban_io
  have h0 : ¬ (r.ret < 0) := by omega
  have h12 : ¬ (r.ret < 12) := by omega
  rw [if_pos hm]
  simp only [if_neg h0, if_neg h12]
  refine ⟨trivial, trivial, ?_, ?_, ?_, ?_⟩
  · cases w.impl.stream <;> simp [Host.emit, Host.exec]
  · cases w.impl.stream <;> simp [Host.emit, Host.exec]
  · intro s hs
    simp [hs, Host.emit, Host.exec, List.filter_append, Call.is_receive_packet]
  · intro hs
    simp [hs, Host.emit, Host.exec]

/-- A 12-byte datagram, once with a stream attached and once without. -/
theorem on_vban_io_valid_packet_witness :
    (on_vban_io ⟨{ Impl.zero with stream := some 1 }, Host.empty⟩ 5 SPA_IO_IN
        ⟨12, List.replicate 12 7⟩).host.calls =
      [Call.recv 5 BUFFER_SIZE, Call.stream_receive_packet 1 (List.replicate 12 7) 12] ∧
    (on_vban_io ⟨{ Impl.zero with stream := some 1 }, Host.empty⟩ 5 SPA_IO_IN
        ⟨12, List.replicate 12 7⟩).impl.receiving = true :=
  have h := on_vban_io_valid_packet ⟨{ Impl.zero with stream := some 1 }, Host.empty⟩ 5
    SPA_IO_IN ⟨12, List.replicate 12 7⟩ (by decide) (by decide) (by decide)
  ⟨(h.2.2.2.2.1 1 rfl).1, h.2.1⟩

/-! ## Socket creation and its failure paths -/

/-- The calls emitted are appended to the trace in order. -/
theorem Host.emit_calls (h : Host) (cs : List Call) : (h.emit cs).calls = h.calls ++ cs := by
  induction cs generalizing h with
  | nil => simp [Host.emit]
  | cons c cs ih =>
    have hc : (h.exec c).calls = h.calls ++ [c] := by
      cases c <;> simp only [Host.exec] <;> split_ifs <;> rfl
    have : h.emit (c :: cs) = (h.exec c).emit cs := rfl
    rw [this, ih, hc, List.append_assoc]
    rfl

/-- Emitting one call after a sequence. -/
theorem Host.emit_snoc (h : Host) (cs : List Call) (c : Call) :
    h.emit (cs ++ [c]) = (h.emit cs).exec c := by
  simp [Host.emit, List.foldl_append]

/-- A neutral call leaves the open descriptors and the loop sources alone. -/
theorem Host.exec_neutral (h : Host) (c : Call) (hc : c.is_neutral = true) :
    (h.exec c).open_fds = h.open_fds ∧ (h.exec c).io_sources = h.io_sources := by
  cases c <;> simp_all [Host.exec, Call.is_neutral]

/-- The effect of a `close`. -/
theorem Host.exec_close (h : Host) (fd : Int) :
    (h.exec (Call.close fd)).open_fds = h.open_fds.erase fd ∧
    (h.exec (Call.close fd)).io_sources = h.io_sources := by
  simp [Host.exec]

/-- What the tail of `make_socket` does when it is entered with the new descriptor `fd`
open and not yet closed: either the result is negative and `fd` has been closed, once, or
the result is `fd`, still open. -/
theorem make_socket_finish_emit (h : Host) (env : SysEnv) (fd : Int) (sa : SockAddr)
    (salen : Nat) (res : Int) (calls : List Call) (l io : List Int) (herr : env.errno_pos)
    (hopen : (h.emit calls).open_fds = fd :: l) (hio : (h.emit calls).io_sources = io)
    (hcl : calls.filter Call.is_close = []) :
    ((make_socket_finish env fd sa salen res calls).ret < 0 ∧
      (h.emit (make_socket_finish env fd sa salen res calls).calls).open_fds = l ∧
      (h.emit (make_socket_finish env fd sa salen res calls).calls).io_sources = io ∧
      (make_socket_finish env fd sa salen res calls).calls.filter Call.is_close =
        [Call.close fd]) ∨
    ((make_socket_finish env fd sa salen res calls).ret = fd ∧
      (h.emit (make_socket_finish env fd sa salen res calls).calls).open_fds = fd :: l ∧
      (h.emit (make_socket_finish env fd sa salen res calls).calls).io_sources = io ∧
      (make_socket_finish env fd sa salen res calls).calls.filter Call.is_close = []) := by
  obtain ⟨_, _, _, h4, h5, _⟩ := herr
  unfold make_socket_finish
  split_ifs with c1 c2
  · left
    refine ⟨by simp only; omega, ?_, ?_, ?_⟩
    · rw [Host.emit_snoc, (Host.exec_close _ _).1, hopen, List.erase_cons_head]
    · rw [Host.emit_snoc, (Host.exec_close _ _).2, hio]
    · simp [List.filter_append, hcl, Call.is_close]
  · left
    refine ⟨by simp only; omega, ?_, ?_, ?_⟩
    · have : calls ++ [Call.bind fd sa salen, Call.close fd] =
          (calls ++ [Call.bind fd sa salen]) ++ [Call.close fd] := by simp
      rw [this, Host.emit_snoc, (Host.exec_close _ _).1, Host.emit_snoc,
        (Host.exec_neutral _ (Call.bind fd sa salen) rfl).1, hopen, List.erase_cons_head]
    · have : calls ++ [Call.bind fd sa salen, Call.close fd] =
          (calls ++ [Call.bind fd sa salen]) ++ [Call.close fd] := by simp
      rw [this, Host.emit_snoc, (Host.exec_close _ _).2, Host.emit_snoc,
        (Host.exec_neutral _ (Call.bind fd sa salen) rfl).2, hio]
    · simp [List.filter_append, hcl, Call.is_close]
  · right
    refine ⟨rfl, ?_, ?_, ?_⟩
    · rw [Host.emit_snoc, (Host.exec_neutral _ (Call.bind fd sa salen) rfl).1, hopen]
    · rw [Host.emit_snoc, (Host.exec_neutral _ (Call.bind fd sa salen) rfl).2, hio]
    · simp [List.filter_append, hcl, Call.is_close]

/-- Appending a neutral call keeps what is known about the open descriptors, the loop
sources and the closes so far. -/
theorem Host.emit_snoc_neutral (h : Host) (calls : List Call) (c : Call) (l io : List Int)
    (hc : c.is_neutral = true) (hopen : (h.emit calls).open_fds = l)
    (hio : (h.emit calls).io_sources = io) (hcl : calls.filter Call.is_close = []) :
    (h.emit (calls ++ [c])).open_fds = l ∧ (h.emit (calls ++ [c])).io_sources = io ∧
    (calls ++ [c]).filter Call.is_close = [] := by
  refine ⟨?_, ?_, ?_⟩
  · rw [Host.emit_snoc, (Host.exec_neutral _ c hc).1, hopen]
  · rw [Host.emit_snoc, (Host.exec_neutral _ c hc).2, hio]
  · cases c <;> simp_all [List.filter_append, Call.is_close, Call.is_neutral]

/-- The same for the policy part of `make_socket`, entered with the new descriptor `fd`
open and not yet closed. -/
theorem make_socket_policy_emit (h : Host) (env : SysEnv) (fd : Int) (sa : SockAddr)
    (salen : Nat) (ifname : Option String) (calls : List Call) (l io : List Int)
    (herr : env.errno_pos)
    (hopen : (h.emit calls).open_fds = fd :: l) (hio : (h.emit calls).io_sources = io)
    (hcl : calls.filter Call.is_close = []) :
    ((make_socket_policy env fd sa salen ifname calls).ret < 0 ∧
      (h.emit (make_socket_policy env fd sa salen ifname calls).calls).open_fds = l ∧
      (h.emit (make_socket_policy env fd sa salen ifname calls).calls).io_sources = io ∧
      (make_socket_policy env fd sa salen ifname calls).calls.filter Call.is_close =
        [Call.close fd]) ∨
    ((make_socket_policy env fd sa salen ifname calls).ret = fd ∧
      (h.emit (make_socket_policy env fd sa salen ifname calls).calls).open_fds = fd :: l ∧
      (h.emit (make_socket_policy env fd sa salen ifname calls).calls).io_sources = io ∧
      (make_socket_policy env fd sa salen ifname calls).calls.filter Call.is_close = []) := by
  -- the calls after the interface lookup
  have key : ∀ calls1 : List Call, (h.emit calls1).open_fds = fd :: l →
      (h.emit calls1).io_sources = io → calls1.filter Call.is_close = [] →
      ∀ idx : Nat,
      let r := (match sa with
        | .in4 port addr =>
          if (addr &&& ipv4_mcast_mask) = ipv4_mcast_mask then
            make_socket_finish env fd sa salen env.join_ret
              (calls1 ++ [Call.ip_add_membership fd addr idx])
          else
            make_socket_finish env fd (.in4 port INADDR_ANY) salen 0 calls1
        | .in6 port flow addr scope =>
          if addr.getD 0 0 = 0xff then
            make_socket_finish env fd sa salen env.join_ret
              (calls1 ++ [Call.ipv6_join_group fd addr idx])
          else
            make_socket_finish env fd (.in6 port flow in6addr_any scope) salen 0 calls1
        | .other _ =>
          (⟨-(EINVAL : Int), sa, calls1 ++ [Call.close fd]⟩ : SocketResult))
      (r.ret < 0 ∧ (h.emit r.calls).open_fds = l ∧ (h.emit r.calls).io_sources = io ∧
        r.calls.filter Call.is_close = [Call.close fd]) ∨
      (r.ret = fd ∧ (h.emit r.calls).open_fds = fd :: l ∧ (h.emit r.calls).io_sources = io ∧
        r.calls.filter Call.is_close = []) := by
    intro calls1 ho hi hc idx
    cases sa with
    | in4 port addr =>
      simp only
      split_ifs
      · obtain ⟨a, b, c⟩ := Host.emit_snoc_neutral h calls1
          (Call.ip_add_membership fd addr idx) _ _ rfl ho hi hc
        exact make_socket_finish_emit h env fd _ salen _ _ l io herr a b c
      · exact make_socket_finish_emit h env fd _ salen _ _ l io herr ho hi hc
    | in6 port flow addr scope =>
      simp only
      split_ifs
      · obtain ⟨a, b, c⟩ := Host.emit_snoc_neutral h calls1
          (Call.ipv6_join_group fd addr idx) _ _ rfl ho hi hc
        exact make_socket_finish_emit h env fd _ salen _ _ l io herr a b c
      · exact make_socket_finish_emit h env fd _ salen _ _ l io herr ho hi hc
    | other f =>
      left
      refine ⟨by simp [EINVAL], ?_, ?_, ?_⟩
      · simp only
        rw [Host.emit_snoc, (Host.exec_close _ _).1, ho, List.erase_cons_head]
      · simp only
        rw [Host.emit_snoc, (Host.exec_close _ _).2, hi]
      · simp [List.filter_append, hc, Call.is_close]
  cases ifname with
  | none => exact key calls hopen hio hcl 0
  | some n =>
    obtain ⟨a, b, c⟩ := Host.emit_snoc_neutral h calls
      (Call.ioctl_ifindex fd (n.take (IFNAMSIZ - 1))) _ _ rfl hopen hio hcl
    exact key _ a b c _

/-- What `make_socket` does to the open descriptors.  With every `errno` positive, either
the result is negative, no descriptor is left open and the created socket, if any, was
closed exactly once; or the result is the new descriptor, which is now open, and nothing
was closed.  The loop sources are not touched. -/
theorem make_socket_emit (h : Host) (sa : SockAddr) (salen : Nat) (ifname : Option String)
    (env : SysEnv) (herr : env.errno_pos) :
    ((make_socket sa salen ifname env).ret < 0 ∧
      (h.emit (make_socket sa salen ifname env).calls).open_fds = h.open_fds ∧
      (h.emit (make_socket sa salen ifname env).calls).io_sources = h.io_sources ∧
      (make_socket sa salen ifname env).calls.filter Call.is_close =
        if 0 ≤ env.socket_ret then [Call.close env.socket_ret] else []) ∨
    (0 ≤ env.socket_ret ∧ (make_socket sa salen ifname env).ret = env.socket_ret ∧
      (h.emit (make_socket sa salen ifname env).calls).open_fds =
        env.socket_ret :: h.open_fds ∧
      (h.emit (make_socket sa salen ifname env).calls).io_sources = h.io_sources ∧
      (make_socket sa salen ifname env).calls.filter Call.is_close = []) := by
  have herr0 := herr
  obtain ⟨h1, h2, h3, _, _, _⟩ := herr
  by_cases hfd : env.socket_ret < 0
  · left
    have hn : ¬ (0 ≤ env.socket_ret) := by omega
    simp only [make_socket, if_pos hfd, if_neg hn]
    refine ⟨by omega, ?_, ?_, ?_⟩
    · simp [Host.emit, Host.exec, hfd]
    · simp [Host.emit, Host.exec, hfd]
    · simp [Call.is_close]
  · have hp : 0 ≤ env.socket_ret := by omega
    -- state after the `socket` call
    have s0 : (h.emit [Call.socket sa.sa_family env.socket_ret]).open_fds =
          env.socket_ret :: h.open_fds ∧
        (h.emit [Call.socket sa.sa_family env.socket_ret]).io_sources = h.io_sources ∧
        [Call.socket sa.sa_family env.socket_ret].filter Call.is_close = [] := by
      simp [Host.emit, Host.exec, hfd, Call.is_close]
    -- state after the optional `SO_TIMESTAMP`
    have s1 : ∀ c1 : List Call,
        c1 = (if env.have_so_timestamp then
          [Call.socket sa.sa_family env.socket_ret] ++ [Call.setsockopt_timestamp env.socket_ret]
          else [Call.socket sa.sa_family env.socket_ret]) →
        (h.emit c1).open_fds = env.socket_ret :: h.open_fds ∧
        (h.emit c1).io_sources = h.io_sources ∧ c1.filter Call.is_close = [] := by
      intro c1 hc1
      subst hc1
      split_ifs
      · exact Host.emit_snoc_neutral h _ (Call.setsockopt_timestamp env.socket_ret) _ _ rfl
          s0.1 s0.2.1 s0.2.2
      · exact s0
    simp only [make_socket, if_neg hfd, if_pos hp]
    obtain ⟨a1, b1, c1⟩ := s1 _ rfl
    generalize (if env.have_so_timestamp then
          [Call.socket sa.sa_family env.socket_ret] ++ [Call.setsockopt_timestamp env.socket_ret]
          else [Call.socket sa.sa_family env.socket_ret]) = cc at a1 b1 c1 ⊢
    split_ifs with t1 t2
    · left
      refine ⟨by simp only; omega, ?_, ?_, ?_⟩
      · simp only
        rw [Host.emit_snoc, (Host.exec_close _ _).1, a1, List.erase_cons_head]
      · simp only
        rw [Host.emit_snoc, (Host.exec_close _ _).2, b1]
      · simp [List.filter_append, c1, Call.is_close]
    · obtain ⟨a2, b2, c2⟩ := Host.emit_snoc_neutral h _
        (Call.setsockopt_reuseaddr env.socket_ret) _ _ rfl a1 b1 c1
      left
      refine ⟨by simp only; omega, ?_, ?_, ?_⟩
      · simp only
        rw [Host.emit_snoc, (Host.exec_close _ _).1, a2, List.erase_cons_head]
      · simp only
        rw [Host.emit_snoc, (Host.exec_close _ _).2, b2]
      · simp [List.filter_append, c1, Call.is_close]
    · obtain ⟨a2, b2, c2⟩ := Host.emit_snoc_neutral h _
        (Call.setsockopt_reuseaddr env.socket_ret) _ _ rfl a1 b1 c1
      rcases make_socket_policy_emit h env env.socket_ret sa salen ifname _ _ _ herr0
        a2 b2 c2 with hneg | hpos
      · left; exact hneg
      · right; exact ⟨hp, hpos⟩

/-- A failed step makes the tail of `make_socket` return a negative value. -/
theorem make_socket_finish_neg (env : SysEnv) (fd : Int) (sa : SockAddr) (salen : Nat)
    (res : Int) (calls : List Call) (herr : env.errno_pos)
    (hfail : res < 0 ∨ env.bind_ret < 0) :
    (make_socket_finish env fd sa salen res calls).ret < 0 := by
  obtain ⟨_, _, _, h4, h5, _⟩ := herr
  unfold make_socket_finish
  split_ifs with c1 c2
  · simp only; omega
  · simp only; omega
  · omega

/-- The tail of `make_socket` issues no group join of its own. -/
theorem make_socket_finish_joins (env : SysEnv) (fd : Int) (sa : SockAddr) (salen : Nat)
    (res : Int) (calls : List Call) :
    (make_socket_finish env fd sa salen res calls).calls.filter Call.is_join =
      calls.filter Call.is_join := by
  unfold make_socket_finish
  split_ifs <;> simp [List.filter_append, Call.is_join]

/-- Every failing step after the creation of the socket makes `make_socket` return a
negative value: a failing socket option, an unsupported family, a failing group join when
one is issued, and a failing `bind`. -/
theorem make_socket_failures (sa : SockAddr) (salen : Nat) (ifname : Option String)
    (env : SysEnv) (herr : env.errno_pos) (hfd : 0 ≤ env.socket_ret) :
    (env.have_so_timestamp = true → env.timestamp_ret < 0 →
      (make_socket sa salen ifname env).ret < 0) ∧
    (env.reuseaddr_ret < 0 → (make_socket sa salen ifname env).ret < 0) ∧
    (env.bind_ret < 0 → (make_socket sa salen ifname env).ret < 0) ∧
    ((make_socket sa salen ifname env).calls.filter Call.is_join ≠ [] → env.join_ret < 0 →
      (make_socket sa salen ifname env).ret < 0) ∧
    (∀ f, sa = .other f → (make_socket sa salen ifname env).ret < 0) := by
  have herr0 := herr
  obtain ⟨h1, h2, h3, _, _, _⟩ := herr
  have hn : ¬ (env.socket_ret < 0) := by omega
  -- the policy part, entered with calls that contain no join
  have key : ∀ calls : List Call, calls.filter Call.is_join = [] →
      (env.bind_ret < 0 → (make_socket_policy env env.socket_ret sa salen ifname calls).ret < 0) ∧
      ((make_socket_policy env env.socket_ret sa salen ifname calls).calls.filter
          Call.is_join ≠ [] → env.join_ret < 0 →
        (make_socket_policy env env.socket_ret sa salen ifname calls).ret < 0) ∧
      (∀ f, sa = .other f →
        (make_socket_policy env env.socket_ret sa salen ifname calls).ret < 0) := by
    intro calls hj
    have hj1 : (match ifname with
        | some n => calls ++ [Call.ioctl_ifindex env.socket_ret (n.take (IFNAMSIZ - 1))]
        | none => calls).filter Call.is_join = [] := by
      cases ifname <;> simp [List.filter_append, hj, Call.is_join]
    unfold make_socket_policy
    simp only
    generalize (match ifname with
        | some n => calls ++ [Call.ioctl_ifindex env.socket_ret (n.take (IFNAMSIZ - 1))]
        | none => calls) = calls1 at hj1 ⊢
    cases sa with
    | in4 port addr =>
      simp only
      by_cases hc : (addr &&& ipv4_mcast_mask) = ipv4_mcast_mask
      · rw [if_pos hc]
        exact ⟨fun hb => make_socket_finish_neg _ _ _ _ _ _ herr0 (Or.inr hb),
          fun _ hjr => make_socket_finish_neg _ _ _ _ _ _ herr0 (Or.inl hjr),
          fun f hf => by cases hf⟩
      · rw [if_neg hc]
        refine ⟨fun hb => make_socket_finish_neg _ _ _ _ _ _ herr0 (Or.inr hb), ?_,
          fun f hf => by cases hf⟩
        intro hne
        rw [make_socket_finish_joins, hj1] at hne
        exact absurd rfl hne
    | in6 port flow addr scope =>
      simp only
      by_cases hc : addr.getD 0 0 = 0xff
      · rw [if_pos hc]
        exact ⟨fun hb => make_socket_finish_neg _ _ _ _ _ _ herr0 (Or.inr hb),
          fun _ hjr => make_socket_finish_neg _ _ _ _ _ _ herr0 (Or.inl hjr),
          fun f hf => by cases hf⟩
      · rw [if_neg hc]
        refine ⟨fun hb => make_socket_finish_neg _ _ _ _ _ _ herr0 (Or.inr hb), ?_,
          fun f hf => by cases hf⟩
        intro hne
        rw [make_socket_finish_joins, hj1] at hne
        exact absurd rfl hne
    | other f =>
      simp only
      refine ⟨fun _ => by simp [EINVAL], fun _ _ => by simp [EINVAL], fun _ _ => by simp [EINVAL]⟩
  have hpre : ∀ cc : List Call, cc.filter Call.is_join = [] →
      (cc ++ [Call.setsockopt_reuseaddr env.socket_ret]).filter Call.is_join = [] := by
    intro cc hcc
    simp [List.filter_append, hcc, Call.is_join]
  have hc1 : (if env.have_so_timestamp then
      [Call.socket sa.sa_family env.socket_ret] ++ [Call.setsockopt_timestamp env.socket_ret]
      else [Call.socket sa.sa_family env.socket_ret]).filter Call.is_join = [] := by
    split_ifs <;> simp [Call.is_join]
  simp only [make_socket, if_neg hn]
  generalize (if env.have_so_timestamp then
      [Call.socket sa.sa_family env.socket_ret] ++ [Call.setsockopt_timestamp env.socket_ret]
      else [Call.socket sa.sa_family env.socket_ret]) = cc at hc1 ⊢
  obtain ⟨k1, k2, k3⟩ := key _ (hpre cc hc1)
  split_ifs with t1 t2
  · have : -(env.timestamp_errno : Int) < 0 := by omega
    exact ⟨fun _ _ => this, fun _ => this, fun _ => this, fun _ _ => this, fun _ _ => this⟩
  · have : -(env.reuseaddr_errno : Int) < 0 := by omega
    exact ⟨fun _ _ => this, fun _ => this, fun _ => this, fun _ _ => this, fun _ _ => this⟩
  · refine ⟨?_, fun hr => absurd hr t2, k1, k2, k3⟩
    intro hts hlt
    simp [hts, hlt] at t1

/-- The function `stream_start` in the Idle state, written out. -/
theorem stream_start_idle (w : World) (env : SysEnv) (hidle : w.impl.source = none) :
    stream_start w env =
      if (make_socket w.impl.src_addr w.impl.src_len w.impl.ifname env).ret < 0 then
        ({ impl := { w.impl with
              src_addr := (make_socket w.impl.src_addr w.impl.src_len w.impl.ifname env).sa },
           host := w.host.emit
              (make_socket w.impl.src_addr w.impl.src_len w.impl.ifname env).calls },
         (make_socket w.impl.src_addr w.impl.src_len w.impl.ifname env).ret)
      else if env.add_io_ok then
        ({ impl := { w.impl with
              src_addr := (make_socket w.impl.src_addr w.impl.src_len w.impl.ifname env).sa,
              source := some
                ⟨(make_socket w.impl.src_addr w.impl.src_len w.impl.ifname env).ret⟩ },
           host := (w.host.emit
              (make_socket w.impl.src_addr w.impl.src_len w.impl.ifname env).calls).emit
              [Call.loop_add_io
                (make_socket w.impl.src_addr w.impl.src_len w.impl.ifname env).ret true] }, 0)
      else
        ({ impl := { w.impl with
              src_addr := (make_socket w.impl.src_addr w.impl.src_len w.impl.ifname env).sa,
              source := none },
           host := (w.host.emit
              (make_socket w.impl.src_addr w.impl.src_len w.impl.ifname env).calls).emit
              [Call.loop_add_io
                (make_socket w.impl.src_addr w.impl.src_len w.impl.ifname env).ret false,
               Call.close
                (make_socket w.impl.src_addr w.impl.src_len w.impl.ifname env).ret] },
         -(env.add_io_errno : Int)) := by
  unfold stream_start
  rw [hidle]

/-- C8: `stream_start` in the Idle state, after `socket` has returned a descriptor, with
every `errno` positive.  Either it fails: the result is negative, the descriptor has
been closed exactly once, the socket handle is empty and no descriptor or loop source
is left behind; or it succeeds: the result is 0, nothing was closed, and the handle holds
the descriptor, which is the one socket added to the open descriptors and to the loop
sources.  It fails whenever a step fails: a socket option, an unsupported family, the
group join when one is issued, `bind`, or the registration with the loop. -/
theorem stream_start_closes_on_failure (w : World) (env : SysEnv)
    (hidle : w.impl.source = none) (herr : env.errno_pos) (hfd : 0 ≤ env.socket_ret) :
    (((make_socket w.impl.src_addr w.impl.src_len w.impl.ifname env).ret < 0 ∧
        (make_socket w.impl.src_addr w.impl.src_len w.impl.ifname env).calls.filter
          Call.is_close = [Call.close env.socket_ret]) ∨
      ((make_socket w.impl.src_addr w.impl.src_len w.impl.ifname env).ret = env.socket_ret ∧
        (make_socket w.impl.src_addr w.impl.src_len w.impl.ifname env).calls.filter
          Call.is_close = [])) ∧
    (((stream_start w env).2 < 0 ∧
        (stream_start w env).1.impl.source = none ∧
        (stream_start w env).1.host.open_fds = w.host.open_fds ∧
        (stream_start w env).1.host.io_sources = w.host.io_sources ∧
        (stream_start w env).1.host.calls.filter Call.is_close =
          w.host.calls.filter Call.is_close ++ [Call.close env.socket_ret]) ∨
      ((stream_start w env).2 = 0 ∧
        (stream_start w env).1.impl.source = some ⟨env.socket_ret⟩ ∧
        (stream_start w env).1.host.open_fds = env.socket_ret :: w.host.open_fds ∧
        (stream_start w env).1.host.io_sources = env.socket_ret :: w.host.io_sources ∧
        (stream_start w env).1.host.calls.filter Call.is_close =
          w.host.calls.filter Call.is_close)) ∧
    (env.have_so_timestamp = true → env.timestamp_ret < 0 → (stream_start w env).2 < 0) ∧
    (env.reuseaddr_ret < 0 → (stream_start w env).2 < 0) ∧
    ((stream_start w env).1.host.calls.filter Call.is_join ≠
        w.host.calls.filter Call.is_join →
      env.join_ret < 0 → (stream_start w env).2 < 0) ∧
    (env.bind_ret < 0 → (stream_start w env).2 < 0) ∧
    (env.add_io_ok = false → (stream_start w env).2 < 0) ∧
    (∀ f, w.impl.src_addr = .other f → (stream_start w env).2 < 0) := by
  have hemit := make_socket_emit w.host w.impl.src_addr w.impl.src_len w.impl.ifname env herr
  obtain ⟨f1, f2, f3, f4, f5⟩ :=
    make_socket_failures w.impl.src_addr w.impl.src_len w.impl.ifname env herr hfd
  have h6 : 0 < env.add_io_errno := herr.2.2.2.2.2
  refine ⟨?_, ?_⟩
  · rcases hemit with ⟨hneg, _, _, hc⟩ | ⟨_, hret, _, _, hc⟩
    · rw [if_pos hfd] at hc
      exact Or.inl ⟨hneg, hc⟩
    · exact Or.inr ⟨hret, hc⟩
  rw [stream_start_idle w env hidle]
  generalize make_socket w.impl.src_addr w.impl.src_len w.impl.ifname env = r at *
  rcases hemit with ⟨hneg, ho, hi, hc⟩ | ⟨_, hret, ho, hi, hc⟩
  · rw [if_pos hneg]
    rw [if_pos hfd] at hc
    refine ⟨Or.inl ⟨hneg, hidle, ho, hi, ?_⟩, fun _ _ => hneg, fun _ => hneg, fun _ _ => hneg,
      fun _ => hneg, fun _ => hneg, fun _ _ => hneg⟩
    simp only [Host.emit_calls, List.filter_append, hc]
  · have hnn : ¬ (r.ret < 0) := by omega
    rw [if_neg hnn]
    cases hadd : env.add_io_ok
    · have hlt : -(env.add_io_errno : Int) < 0 := by omega
      rw [if_neg Bool.false_ne_true]
      refine ⟨Or.inl ⟨hlt, rfl, ?_, ?_, ?_⟩, fun _ _ => hlt, fun _ => hlt, fun _ _ => hlt,
        fun _ => hlt, fun _ => hlt, fun _ _ => hlt⟩
      · simp [Host.emit, Host.exec, hret] at ho ⊢
        rw [ho, List.erase_cons_head]
      · simp [Host.emit, Host.exec] at hi ⊢
        exact hi
      · simp only [Host.emit_calls, List.filter_append, hc, hret]
        simp [Call.is_close]
    · rw [if_pos rfl]
      refine ⟨Or.inr ⟨rfl, by rw [hret], ?_, ?_, ?_⟩, ?_, ?_, ?_, ?_,
        fun h => Bool.noConfusion h, ?_⟩
      · simp [Host.emit, Host.exec] at ho ⊢
        exact ho
      · simp [Host.emit, Host.exec, hret] at hi ⊢
        exact hi
      · simp only [Host.emit_calls, List.filter_append, hc]
        simp [Call.is_close]
      · intro a b; exact absurd (f1 a b) hnn
      · intro a; exact absurd (f2 a) hnn
      · intro a b
        apply absurd (f4 _ b) hnn
        intro hnil
        apply a
        simp only [Host.emit_calls, List.filter_append, hnil]
        simp [Call.is_join]
      · intro a; exact absurd (f3 a) hnn
      · intro f a; exact absurd (f5 f a) hnn

/-- A start whose `bind` fails: the result is negative, descriptor 5 has been closed once
and nothing is left open. -/
theorem stream_start_closes_on_failure_witness :
    (stream_start ⟨loaded [], Host.empty⟩ SysEnv.bind_fails).2 < 0 ∧
    (stream_start ⟨loaded [], Host.empty⟩ SysEnv.bind_fails).1.host.open_fds = [] ∧
    (stream_start ⟨loaded [], Host.empty⟩ SysEnv.bind_fails).1.host.calls.filter
      Call.is_close = [Call.close 5] :=
  have h := stream_start_closes_on_failure ⟨loaded [], Host.empty⟩ SysEnv.bind_fails
    (by decide) (by decide) (by decide)
  ⟨h.2.2.2.2.2.1 (by decide), by decide, by decide⟩

/-! ## At most one socket -/

/-- With a socket handle held, `stream_start` returns 0 and changes nothing. -/
theorem stream_start_listening (w : World) (env : SysEnv) (src : Source)
    (h : w.impl.source = some src) : stream_start w env = (w, 0) := by
  unfold stream_start
  rw [h]

/-- The function `stream_start` keeps the sockets consistent. -/
theorem stream_start_sockets_ok (w : World) (env : SysEnv) (herr : env.errno_pos)
    (hw : w.sockets_ok) : (stream_start w env).1.sockets_ok := by
  cases hsrc : w.impl.source with
  | some src => rw [stream_start_listening w env src hsrc]; exact hw
  | none =>
    obtain ⟨hw1, hw2⟩ := hw
    rw [hsrc] at hw2
    have hemit := make_socket_emit w.host w.impl.src_addr w.impl.src_len w.impl.ifname env herr
    rw [stream_start_idle w env hsrc]
    generalize make_socket w.impl.src_addr w.impl.src_len w.impl.ifname env = r at *
    rcases hemit with ⟨hneg, ho, hi, _⟩ | ⟨_, hret, ho, hi, _⟩
    · rw [if_pos hneg]
      refine ⟨?_, ?_⟩
      · simp only [ho, hi, hw1]
      · simp only [hi, hw2, hsrc]
    · have hnn : ¬ (r.ret < 0) := by omega
      rw [if_neg hnn]
      cases env.add_io_ok
      · rw [if_neg Bool.false_ne_true]
        refine ⟨?_, ?_⟩
        · simp [Host.emit, Host.exec, hret] at ho hi ⊢
          rw [ho, hi, List.erase_cons_head, hw1]
        · simp [Host.emit, Host.exec] at hi ⊢
          rw [hi, hw2]
          rfl
      · rw [if_pos rfl]
        refine ⟨?_, ?_⟩
        · simp [Host.emit, Host.exec, hret] at ho hi ⊢
          rw [ho, hi, hw1]
        · simp [Host.emit, Host.exec, hret] at hi ⊢
          rw [hi, hw2]
          rfl

/-- The function `stream_stop` keeps the sockets consistent. -/
theorem stream_stop_sockets_ok (w : World) (hw : w.sockets_ok) :
    (stream_stop w).sockets_ok := by
  obtain ⟨hw1, hw2⟩ := hw
  unfold stream_stop
  cases hsrc : w.impl.source with
  | none => exact ⟨hw1, by rw [hw2, hsrc]⟩
  | some src =>
    rw [hsrc] at hw2
    simp only [Option.map_some', Option.toList_some] at hw2
    refine ⟨?_, ?_⟩
    · simp [Host.emit, Host.exec, hw1]
    · simp [Host.emit, Host.exec, hw2]

/-- The readiness callback keeps the sockets consistent. -/
theorem on_vban_io_sockets_ok (w : World) (fd : Int) (mask : Nat) (r : RecvOutcome)
    (hw : w.sockets_ok) : (on_vban_io w fd mask r).sockets_ok := by
  obtain ⟨hw1, hw2⟩ := hw
  unfold on_vban_io World.sockets_ok
  split_ifs
  · exact ⟨by simp [Host.emit, Host.exec, hw1], by simp [Host.emit, Host.exec, hw2]⟩
  · exact ⟨by simp [Host.emit, Host.exec, hw1], by simp [Host.emit, Host.exec, hw2]⟩
  · cases w.impl.stream <;>
      exact ⟨by simp [Host.emit, Host.exec, hw1], by simp [Host.emit, Host.exec, hw2]⟩
  · exact ⟨hw1, hw2⟩

/-- Every callback keeps the sockets consistent. -/
theorem step_sockets_ok (w : World) (e : Event) (herr : e.errno_pos) (hw : w.sockets_ok) :
    (step w e).sockets_ok := by
  cases e with
  | state_changed started error env =>
    unfold step stream_state_changed
    cases error with
    | some msg => exact ⟨by simp [Host.emit, Host.exec, hw.1], by simp [Host.emit, Host.exec, hw.2]⟩
    | none =>
      simp only
      split_ifs
      · exact stream_start_sockets_ok w env herr hw
      · exact stream_stop_sockets_ok w hw
      · exact hw
  | readable fd mask r => exact on_vban_io_sockets_ok w fd mask r hw
  | timer n => exact hw

/-- The sockets stay consistent along every run. -/
theorem run_sockets_ok (evs : List Event) (w : World) (herr : ∀ e ∈ evs, e.errno_pos)
    (hw : w.sockets_ok) : (run w evs).sockets_ok := by
  induction evs generalizing w with
  | nil => exact hw
  | cons e evs ih =>
    have : run w (e :: evs) = run (step w e) evs := rfl
    rw [this]
    exact ih (step w e) (fun x hx => herr x (List.mem_cons_of_mem _ hx))
      (step_sockets_ok w e (herr e (List.mem_cons_self _ _)) hw)

/-- The label `out:` leaves no module state alive. -/
theorem module_init_out_impl (impl : Impl) (res : Int) :
    (module_init_out impl res).impl = none := rfl

/-- When the last part of the initialisation leaves a module state alive, that state has
the socket handle, the source address and the activity flag it was entered with, a
stream attached, and no call has been made. -/
theorem module_init_connect_alive (env : InitEnv) (impl0 : Impl) (props stream_props : Props)
    (impl : Impl) (h : (module_init_connect env impl0 props stream_props).impl = some impl) :
    impl.source = impl0.source ∧ impl.receiving = impl0.receiving ∧
    impl.src_addr = impl0.src_addr ∧ impl.stream.isSome = true ∧
    impl.always_process =
      pw_properties_get_bool env.atob stream_props PW_KEY_NODE_ALWAYS_PROCESS true ∧
    (module_init_connect env impl0 props stream_props).ret = 0 ∧
    (module_init_connect env impl0 props stream_props).host = Host.empty := by
  unfold module_init_connect at h ⊢
  cases hc : env.context_core <;> cases hcc : env.connect_core <;> cases ht : env.timer <;>
    cases hs : env.stream <;>
    simp only [hc, hcc, ht, hs, module_init_out_impl] at h ⊢ <;>
    cases h <;> simp

/-- A module state left alive by the middle part of the initialisation. -/
theorem module_init_source_alive (env : InitEnv) (impl0 : Impl) (props stream_props : Props)
    (res : Int) (impl : Impl)
    (h : (module_init_source env impl0 props stream_props res).impl = some impl) :
    impl.source = impl0.source ∧ impl.receiving = impl0.receiving ∧
    impl.stream.isSome = true ∧
    impl.always_process =
      pw_properties_get_bool env.atob stream_props PW_KEY_NODE_ALWAYS_PROCESS true ∧
    (module_init_source env impl0 props stream_props res).ret = 0 ∧
    (module_init_source env impl0 props stream_props res).host = Host.empty := by
  unfold module_init_source at h ⊢
  simp only at h ⊢
  split_ifs at h ⊢
  · cases h
  · cases h
  · obtain ⟨a, b, _, c, d, e, f⟩ := module_init_connect_alive _ _ _ _ _ h
    exact ⟨a, b, c, d, e, f⟩

/-- A module state left alive by `pipewire__module_init` is Idle: the socket handle is
empty, the activity flag is clear, a stream is attached, the result is 0 and no call has
been made. -/
theorem module_init_alive (env : InitEnv) (impl : Impl)
    (h : (pipewire__module_init env).impl = some impl) :
    impl.source = none ∧ impl.receiving = false ∧ impl.stream.isSome = true ∧
    (pipewire__module_init env).ret = 0 ∧ (pipewire__module_init env).host = Host.empty := by
  cases hc : env.calloc_ok <;> cases hs : env.stream_props_ok <;> cases ha : env.args <;>
    simp only [pipewire__module_init, hc, hs, ha, Bool.not_true, Bool.not_false,
      Bool.false_eq_true, if_true, if_false, module_init_out_impl] at h ⊢ <;>
    first
    | cases h
    | (obtain ⟨a, b, c, _, d, e⟩ := module_init_source_alive _ _ _ _ _ _ h
       exact ⟨a, b, c, d, e⟩)

/-- C6: in every state reached from a successful initialisation by stream
`state_changed` events, readiness notifications and timer firings (every `errno` handed
to the module being positive), the open sockets are the sockets registered with the loop,
they are what the socket handle holds, and there is at most one.  With a socket handle
held, `stream_start` returns 0 and leaves the state as it is: no socket is created or
registered. -/
theorem at_most_one_socket (ienv : InitEnv) (impl : Impl) (evs : List Event)
    (hinit : (pipewire__module_init ienv).impl = some impl)
    (herr : ∀ e ∈ evs, e.errno_pos) :
    (run ⟨impl, (pipewire__module_init ienv).host⟩ evs).host.open_fds =
      (run ⟨impl, (pipewire__module_init ienv).host⟩ evs).host.io_sources ∧
    (run ⟨impl, (pipewire__module_init ienv).host⟩ evs).host.io_sources =
      ((run ⟨impl, (pipewire__module_init ienv).host⟩ evs).impl.source.map Source.fd).toList ∧
    (run ⟨impl, (pipewire__module_init ienv).host⟩ evs).host.open_fds.length ≤ 1 ∧
    ∀ (w : World) (env : SysEnv), w.impl.source ≠ none → stream_start w env = (w, 0) := by
  obtain ⟨hsrc, _, _, _, hhost⟩ := module_init_alive ienv impl hinit
  have h0 : (World.mk impl (pipewire__module_init ienv).host).sockets_ok := by
    rw [hhost]
    exact ⟨rfl, by simp [hsrc, Host.empty]⟩
  obtain ⟨h1, h2⟩ := run_sockets_ok evs _ herr h0
  refine ⟨h1, h2, ?_, ?_⟩
  · rw [h1, h2]
    cases (run ⟨impl, (pipewire__module_init ienv).host⟩ evs).impl.source <;> simp
  · intro w env hne
    cases hs : w.impl.source with
    | none => exact absurd hs hne
    | some src => exact stream_start_listening w env src hs

/-- The run `example_events` of a module loaded with `always_process` off never has
more than one socket open. -/
theorem at_most_one_socket_witness :
    (run ⟨loaded args_stop_closes, (pipewire__module_init (InitEnv.good args_stop_closes)).host⟩
      example_events).host.open_fds.length ≤ 1 :=
  (at_most_one_socket (InitEnv.good args_stop_closes) (loaded args_stop_closes) example_events
    (by decide) (by decide)).2.2.1

/-! ## The stream stops -/

/-- C7: a `state_changed` event with `started = false` and no error in a Listening state
(socket handle `src` held, its descriptor open and registered, stream `s` attached).
With `always_process` false the source is destroyed, which deregisters and closes the
socket, and the handle is cleared: the module is Idle.  With `always_process` true nothing
changes, and a following datagram of at least 12 bytes is forwarded to the receive entry
point of `s` and sets the Activity Flag. -/
theorem stream_stopped_event (w : World) (env : SysEnv) (src : Source) (s : Nat)
    (hsrc : w.impl.source = some src) (hstream : w.impl.stream = some s)
    (hopen : w.host.open_fds = [src.fd]) (hio : w.host.io_sources = [src.fd]) :
    (w.impl.always_process = false →
      (stream_state_changed w false none env).impl = { w.impl with source := none } ∧
      (stream_state_changed w false none env).host.io_sources = [] ∧
      (stream_state_changed w false none env).host.open_fds = [] ∧
      (stream_state_changed w false none env).host.calls =
        w.host.calls ++ [Call.loop_destroy_source src.fd]) ∧
    (w.impl.always_process = true →
      stream_state_changed w false none env = w ∧
      ∀ (fd : Int) (mask : Nat) (r : RecvOutcome), mask &&& SPA_IO_IN ≠ 0 → 12 ≤ r.ret →
        (on_vban_io (stream_state_changed w false none env) fd mask r).host.calls =
          w.host.calls ++
            [Call.recv fd BUFFER_SIZE, Call.stream_receive_packet s r.buffer r.ret] ∧
        (on_vban_io (stream_state_changed w false none env) fd mask r).impl.receiving = true ∧
        (on_vban_io (stream_state_changed w false none env) fd mask r).impl.source = some src ∧
        (on_vban_io (stream_state_changed w false none env) fd mask r).host.open_fds =
          [src.fd] ∧
        (on_vban_io (stream_state_changed w false none env) fd mask r).host.io_sources =
          [src.fd]) := by
  refine ⟨?_, ?_⟩
  · intro hap
    simp [stream_state_changed, stream_stop, hap, hsrc, Host.emit, Host.exec, hopen, hio]
  · intro hap
    have hsame : stream_state_changed w false none env = w := by
      simp [stream_state_changed, hap]
    refine ⟨hsame, ?_⟩
    intro fd mask r hm hlen
    rw [hsame]
    have h0 : ¬ (r.ret < 0) := by omega
    have h12 : ¬ (r.ret < 12) := by omega
    unfold on_vban_io
    rw [if_pos hm]
    simp only [if_neg h0, if_neg h12, hstream]
    simp [Host.emit, Host.exec, hsrc, hopen, hio]

/-- A stop with `always_process` off closes the socket of a Listening module; with the
default arguments it changes nothing. -/
theorem stream_stopped_event_witness :
    (stream_state_changed (listening args_stop_closes) false none SysEnv.ok).host.open_fds
      = [] ∧
    stream_state_changed (listening []) false none SysEnv.ok = listening [] :=
  ⟨((stream_stopped_event (listening args_stop_closes) SysEnv.ok ⟨5⟩ 3 (by decide) (by decide)
      (by decide) (by decide)).1 (by decide)).2.2.1,
   ((stream_stopped_event (listening []) SysEnv.ok ⟨5⟩ 3 (by decide) (by decide)
      (by decide) (by decide)).2 (by decide)).1⟩

/-! ## Properties and initialisation -/

/-- Replacing the value of one key leaves the lookup of another key alone. -/
theorem lookup_replace_ne (p : Props) (k k1 v : String) (h : k ≠ k1) :
    List.lookup k (p.map (fun kv => if kv.1 = k1 then (k1, v) else kv)) = List.lookup k p := by
  have hb : (k == k1) = false := by simpa using h
  induction p with
  | nil => rfl
  | cons a p ih =>
    obtain ⟨x, y⟩ := a
    by_cases hx : x = k1
    · subst hx
      simp only [List.map_cons, if_true, List.lookup_cons, hb, ih]
    · simp only [List.map_cons, if_neg hx, List.lookup_cons, ih]

/-- Appending one key leaves the lookup of another key alone. -/
theorem lookup_append_ne (p : Props) (k k1 v : String) (h : k ≠ k1) :
    List.lookup k (p ++ [(k1, v)]) = List.lookup k p := by
  have hb : (k == k1) = false := by simpa using h
  induction p with
  | nil => simp [List.lookup, hb]
  | cons a p ih =>
    obtain ⟨x, y⟩ := a
    simp only [List.cons_append, List.lookup_cons, ih]

/-- Setting one key leaves the value of another key alone. -/
theorem pw_properties_get_set_ne (p : Props) (k k1 v : String) (h : k ≠ k1) :
    pw_properties_get (pw_properties_set p k1 v) k = pw_properties_get p k := by
  unfold pw_properties_get pw_properties_set
  split_ifs
  · exact lookup_replace_ne p k k1 v h
  · exact lookup_append_ne p k k1 v h

/-- The defaults stored by `pipewire__module_init` touch four keys only. -/
theorem module_init_props_get (env : InitEnv) (props0 : Props) (k : String)
    (h1 : k ≠ PW_KEY_NODE_LOOP_NAME) (h2 : k ≠ PW_KEY_NODE_NAME)
    (h3 : k ≠ PW_KEY_NODE_DESCRIPTION) (h4 : k ≠ PW_KEY_MEDIA_NAME) :
    pw_properties_get (module_init_props env props0) k = pw_properties_get props0 k := by
  unfold module_init_props
  simp only
  split_ifs <;> simp only [pw_properties_get_set_ne _ _ _ _ h1, pw_properties_get_set_ne _ _ _ _ h2,
    pw_properties_get_set_ne _ _ _ _ h3, pw_properties_get_set_ne _ _ _ _ h4]

/-- Whenever the allocations succeed and `source.port` reads as 0, or as any multiple of
65536, `pipewire__module_init` destroys the module state and returns 0. -/
theorem module_init_port_zero (env : InitEnv) (props0 : Props)
    (hc : env.calloc_ok = true) (ha : env.args = some props0)
    (hs : env.stream_props_ok = true)
    (hp : pw_properties_get_uint32 env.atou32 props0 "source.port" DEFAULT_SOURCE_PORT
      % 2 ^ 16 = 0) :
    (pipewire__module_init env).ret = 0 ∧ (pipewire__module_init env).impl = none := by
  have hg : pw_properties_get (module_init_props env props0) "source.port" =
      pw_properties_get props0 "source.port" :=
    module_init_props_get env props0 _ (by decide) (by decide) (by decide) (by decide)
  have hp1 : pw_properties_get_uint32 env.atou32 (module_init_props env props0) "source.port"
      DEFAULT_SOURCE_PORT % 2 ^ 16 = 0 := by
    unfold pw_properties_get_uint32 at hp ⊢
    rw [hg]
    exact hp
  simp only [pipewire__module_init, hc, ha, hs, Bool.not_true, Bool.false_eq_true, if_true,
    if_false, module_init_source, hp1]
  exact ⟨rfl, rfl⟩

/-- No call of `impl_destroy` creates a socket. -/
theorem impl_destroy_calls_no_socket (impl : Impl) (af : Nat) (ret : Int) :
    Call.socket af ret ∉ impl_destroy_calls impl := by
  unfold impl_destroy_calls
  cases impl.stream <;> cases impl.source <;> cases impl.core <;> cases impl.timer <;>
    cases impl.data_loop <;> cases impl.do_disconnect <;> simp

/-- The initialisation never creates a socket, whatever its outcome. -/
theorem module_init_no_socket (env : InitEnv) (af : Nat) (ret : Int) :
    Call.socket af ret ∉ (pipewire__module_init env).host.calls := by
  have hout : ∀ impl res, Call.socket af ret ∉ (module_init_out impl res).host.calls := by
    intro impl res
    simp only [module_init_out, impl_destroy, Host.emit_calls, Host.empty, List.nil_append]
    exact impl_destroy_calls_no_socket impl af ret
  have hconn : ∀ impl props sp,
      Call.socket af ret ∉ (module_init_connect env impl props sp).host.calls := by
    intro impl props sp
    unfold module_init_connect
    simp only
    split
    · exact hout _ _
    · split
      · exact hout _ _
      · split
        · exact hout _ _
        · simp [Host.empty]
  have hsrc : ∀ impl props sp res,
      Call.socket af ret ∉ (module_init_source env impl props sp res).host.calls := by
    intro impl props sp res
    unfold module_init_source
    simp only
    split_ifs
    · exact hout _ _
    · exact hout _ _
    · exact hconn _ _ _
  unfold pipewire__module_init
  simp only
  split_ifs
  · simp [Host.empty]
  · split
    · exact hsrc _ _ _ _
    · exact hout _ _
  · split
    · exact hsrc _ _ _ _
    · exact hout _ _

/-- C1: with `source.port=0` and every allocation succeeding, `pipewire__module_init`
takes the `out:` path with `res` still 0: it destroys the module state and returns
0, not a negative error code.  No socket is created. -/
theorem module_init_port_zero_returns_zero :
    (pipewire__module_init (InitEnv.good [("source.port", "0")])).ret = 0 ∧
    (pipewire__module_init (InitEnv.good [("source.port", "0")])).impl = none ∧
    (pipewire__module_init (InitEnv.good [("source.port", "0")])).host.calls =
      [Call.release_loop "data-loop.0", Call.free_stream_props true, Call.free_props true,
       Call.free_ifname false, Call.free_impl] ∧
    (pipewire__module_init (InitEnv.good [("source.port", "0")])).host.open_fds = [] := by
  decide

/-! ## The always-process flag -/

/-- Copying one key leaves the value of another key alone. -/
theorem copy_props_get_ne (sp props : Props) (key k : String) (h : k ≠ key) :
    pw_properties_get (copy_props sp props key) k = pw_properties_get sp k := by
  unfold copy_props
  cases pw_properties_get props key with
  | none => rfl
  | some str =>
    cases pw_properties_get sp key with
    | none => exact pw_properties_get_set_ne sp k key str h
    | some _ => rfl

/-- Copying a list of keys leaves the value of every other key alone. -/
theorem copy_props_foldl_get (keys : List String) (sp props : Props) (k : String)
    (h : k ∉ keys) :
    pw_properties_get (keys.foldl (fun sp key => copy_props sp props key) sp) k =
      pw_properties_get sp k := by
  induction keys generalizing sp with
  | nil => rfl
  | cons key keys ih =>
    rw [List.foldl_cons, ih _ (fun hm => h (List.mem_cons_of_mem _ hm)),
      copy_props_get_ne sp props key k (fun he => h (he ▸ List.mem_cons_self _ _))]

/-- The key `node.always-process` is not among the keys `pipewire__module_init` copies
from the module arguments into `stream_props`. -/
theorem always_process_not_copied : PW_KEY_NODE_ALWAYS_PROCESS ∉ copied_keys := by
  decide

/-- When the module arguments have no `stream.props`, a successful initialisation leaves
`always_process` true, whatever the arguments say about `node.always-process`. -/
theorem module_init_always_process_default (env : InitEnv) (args : Props) (impl : Impl)
    (ha : env.args = some args)
    (hinit : (pipewire__module_init env).impl = some impl)
    (hsp : pw_properties_get args "stream.props" = none) :
    impl.always_process = true := by
  have hg : pw_properties_get (module_init_props env args) "stream.props" = none := by
    rw [module_init_props_get env args _ (by decide) (by decide) (by decide) (by decide), hsp]
  have hkey : pw_properties_get
      (module_init_stream_props env (module_init_props env args) [])
      PW_KEY_NODE_ALWAYS_PROCESS = none := by
    unfold module_init_stream_props
    simp only [hg]
    rw [copy_props_foldl_get _ _ _ _ always_process_not_copied]
    rfl
  cases hc : env.calloc_ok <;> cases hs : env.stream_props_ok <;>
    simp only [pipewire__module_init, hc, hs, ha, Bool.not_true, Bool.not_false,
      Bool.false_eq_true, if_true, if_false, module_init_out_impl] at hinit <;>
    first
    | cases hinit
    | (obtain ⟨_, _, _, a, _, _⟩ := module_init_source_alive _ _ _ _ _ _ hinit
       rw [a]
       unfold pw_properties_get_bool
       rw [hkey])

/-- C9: with `node.always-process=false` among the module's options, as the module
documentation writes it, the initialisation leaves `always_process` true, and a
stream-stopped event in the Listening state keeps the socket open.  The flag is read
from `stream_props`, into which the option is never copied. -/
theorem always_process_option_ignored :
    (pipewire__module_init (InitEnv.good [("node.always-process", "false")])).ret = 0 ∧
    (loaded [("node.always-process", "false")]).always_process = true ∧
    (loaded [("node.always-process", "false")]).props =
      some [("node.always-process", "false"), ("node.loop.name", "data-loop.0"),
        ("node.name", "vban_session.host"), ("node.description", "host"),
        ("media.name", "VBAN Session with host")] ∧
    stream_state_changed (listening [("node.always-process", "false")]) false none SysEnv.ok =
      listening [("node.always-process", "false")] ∧
    (stream_state_changed (listening [("node.always-process", "false")]) false none
      SysEnv.ok).host.open_fds = [5] := by
  decide

/-! ## Teardown -/

/-- C10: in every module state, `impl_destroy` appends its calls to the trace, and the
releases among them are those of the resources present, each once, in the order stream
handle, socket registration, timer, data loop, property storage. -/
theorem impl_destroy_order (w : World) :
    (impl_destroy w).calls = w.host.calls ++ impl_destroy_calls w.impl ∧
    (impl_destroy_calls w.impl).filter Call.is_release = spec_release_order w.impl := by
  refine ⟨Host.emit_calls _ _, ?_⟩
  unfold impl_destroy_calls spec_release_order
  cases w.impl.stream <;> cases w.impl.source <;> cases w.impl.core <;>
    cases w.impl.timer <;> cases w.impl.data_loop <;> cases w.impl.do_disconnect <;>
    simp [Call.is_release]

/-! ## Idle monitor -/

/-- C11: in every module state a firing of the timer gives the same state with the
Activity Flag false, whatever it was before.  Nothing else happens: no call is made (no
destruction is scheduled, nothing is closed), the open descriptors, the loop sources, the
socket handle and the stream handle stay as they were.  A second firing gives the same
state as the first. -/
theorem on_timer_event_clears_flag (w : World) (n m : Nat) :
    on_timer_event w n = { w with impl := { w.impl with receiving := false } } ∧
    (on_timer_event w n).impl.receiving = false ∧
    (on_timer_event w n).host = w.host ∧
    Call.schedule_destroy ∉ (on_timer_event w n).host.calls.drop w.host.calls.length ∧
    (on_timer_event w n).impl.source = w.impl.source ∧
    (on_timer_event w n).impl.stream = w.impl.stream ∧
    on_timer_event (on_timer_event w n) m = on_timer_event w n := by
  refine ⟨rfl, rfl, rfl, ?_, rfl, rfl, rfl⟩
  simp [on_timer_event]

/-! ## The source port -/

/-- A successful `make_socket` calls `bind` exactly once, with the address it leaves in
`*sa`, and that address has the port of the address it was given. -/
theorem make_socket_bind_port (sa : SockAddr) (salen : Nat) (ifname : Option String)
    (env : SysEnv) (herr : env.errno_pos)
    (hok : 0 ≤ (make_socket sa salen ifname env).ret) :
    (make_socket sa salen ifname env).calls.filter Call.is_bind =
      [Call.bind env.socket_ret (make_socket sa salen ifname env).sa salen] ∧
    (make_socket sa salen ifname env).sa.port = sa.port := by
  obtain ⟨hfd, heq⟩ := make_socket_ok_policy sa salen ifname env herr hok
  rw [heq] at hok ⊢
  have hpre := make_socket_prefix_filter sa.sa_family env.socket_ret env.have_so_timestamp
    ifname
  simp only at hpre
  obtain ⟨_, hb⟩ := hpre
  cases sa with
  | other f =>
    exfalso
    unfold make_socket_policy at hok
    simp only at hok
    simp [EINVAL] at hok
  | in4 port a =>
    unfold make_socket_policy at hok ⊢
    simp only at hok ⊢
    by_cases hc : (a &&& ipv4_mcast_mask) = ipv4_mcast_mask
    · rw [if_pos hc] at hok ⊢
      rw [make_socket_finish_ok _ _ _ _ _ _ herr hok]
      simp only [List.filter_append, hb]
      simp [Call.is_join, Call.is_bind]
    · rw [if_neg hc] at hok ⊢
      rw [make_socket_finish_ok _ _ _ _ _ _ herr hok]
      simp only [List.filter_append, hb]
      simp [Call.is_bind, SockAddr.port]
  | in6 port flow a scope =>
    unfold make_socket_policy at hok ⊢
    simp only at hok ⊢
    by_cases hc : a.getD 0 0 = 0xff
    · rw [if_pos hc] at hok ⊢
      rw [make_socket_finish_ok _ _ _ _ _ _ herr hok]
      simp only [List.filter_append, hb]
      simp [Call.is_join, Call.is_bind]
    · rw [if_neg hc] at hok ⊢
      rw [make_socket_finish_ok _ _ _ _ _ _ herr hok]
      simp only [List.filter_append, hb]
      simp [Call.is_bind, SockAddr.port]

/-- A `stream_start` of an Idle module that does not fail has called `bind` exactly once,
with an address that has the port of `src_addr`. -/
theorem stream_start_bind_port (w : World) (env : SysEnv) (hidle : w.impl.source = none)
    (herr : env.errno_pos) (hok : 0 ≤ (stream_start w env).2) :
    ∃ a : SockAddr,
      (stream_start w env).1.host.calls.filter Call.is_bind =
        w.host.calls.filter Call.is_bind ++ [Call.bind env.socket_ret a w.impl.src_len] ∧
      a.port = w.impl.src_addr.port := by
  have h6 : 0 < env.add_io_errno := herr.2.2.2.2.2
  rw [stream_start_idle w env hidle] at hok ⊢
  by_cases hneg : (make_socket w.impl.src_addr w.impl.src_len w.impl.ifname env).ret < 0
  · rw [if_pos hneg] at hok
    simp only at hok
    omega
  · have hnn : 0 ≤ (make_socket w.impl.src_addr w.impl.src_len w.impl.ifname env).ret := by
      omega
    obtain ⟨hb, hp⟩ := make_socket_bind_port _ _ _ _ herr hnn
    rw [if_neg hneg] at hok ⊢
    cases hadd : env.add_io_ok
    · rw [hadd, if_neg Bool.false_ne_true] at hok
      simp only at hok
      omega
    · rw [if_pos rfl]
      refine ⟨_, ?_, hp⟩
      simp only [Host.emit_calls, List.filter_append, hb]
      simp [Call.is_bind]

/-- When the last part of the initialisation leaves no module state alive, its result is
negative. -/
theorem module_init_connect_dead (env : InitEnv) (impl0 : Impl) (props stream_props : Props)
    (herr : env.errno_pos)
    (h : (module_init_connect env impl0 props stream_props).impl = none) :
    (module_init_connect env impl0 props stream_props).ret < 0 := by
  obtain ⟨h1, h2, h3⟩ := herr
  unfold module_init_connect at h ⊢
  cases hc : env.context_core <;> cases hcc : env.connect_core <;> cases ht : env.timer <;>
    cases hs : env.stream <;>
    simp only [hc, hcc, ht, hs, module_init_out] at h ⊢ <;>
    first
    | omega
    | cases h

/-- The last part of the initialisation keeps the source port and the source address. -/
theorem module_init_connect_src (env : InitEnv) (impl0 : Impl) (props stream_props : Props)
    (impl : Impl) (h : (module_init_connect env impl0 props stream_props).impl = some impl) :
    impl.src_port = impl0.src_port ∧ impl.src_addr = impl0.src_addr ∧
    impl.src_len = impl0.src_len ∧ impl.ifname = impl0.ifname := by
  unfold module_init_connect at h
  cases hc : env.context_core <;> cases hcc : env.connect_core <;> cases ht : env.timer <;>
    cases hs : env.stream <;>
    simp only [hc, hcc, ht, hs, module_init_out_impl] at h <;>
    cases h <;> simp

/-- The port check and the address resolution of the initialisation.  With `res` at 0 on
entry, the module state is destroyed with result 0 exactly when the port stored in the
16-bit field is 0; a module state left alive has that port and the address the resolver
returned for it. -/
theorem module_init_source_port (env : InitEnv) (impl0 : Impl) (props stream_props : Props)
    (herr : env.errno_pos) :
    (((module_init_source env impl0 props stream_props 0).ret = 0 ∧
        (module_init_source env impl0 props stream_props 0).impl = none) ↔
      pw_properties_get_uint32 env.atou32 props "source.port" DEFAULT_SOURCE_PORT % 2 ^ 16
        = 0) ∧
    ∀ impl, (module_init_source env impl0 props stream_props 0).impl = some impl →
      impl.src_port =
        pw_properties_get_uint32 env.atou32 props "source.port" DEFAULT_SOURCE_PORT % 2 ^ 16 ∧
      impl.src_addr = (env.net_parse_address (source_ip_text props)
        (pw_properties_get_uint32 env.atou32 props "source.port" DEFAULT_SOURCE_PORT
          % 2 ^ 16)).2.1 ∧
      0 ≤ (env.net_parse_address (source_ip_text props)
        (pw_properties_get_uint32 env.atou32 props "source.port" DEFAULT_SOURCE_PORT
          % 2 ^ 16)).1 := by
  unfold module_init_source source_ip_text
  simp only
  generalize pw_properties_get_uint32 env.atou32 props "source.port" DEFAULT_SOURCE_PORT
    % 2 ^ 16 = port
  by_cases hp : port = 0
  · rw [if_pos hp]
    refine ⟨⟨fun _ => hp, fun _ => ⟨rfl, rfl⟩⟩, ?_⟩
    intro impl h
    cases h
  · rw [if_neg hp]
    split_ifs with hneg
    · refine ⟨⟨fun h => ?_, fun h => absurd h hp⟩, ?_⟩
      · have : (module_init_out _ _).ret = 0 := h.1
        simp only [module_init_out] at this
        omega
      · intro impl h
        cases h
    · refine ⟨⟨fun h => ?_, fun h => absurd h hp⟩, ?_⟩
      · have := module_init_connect_dead _ _ _ _ herr h.2
        omega
      · intro impl h
        obtain ⟨a, b, _, _⟩ := module_init_connect_src _ _ _ _ _ h
        exact ⟨a, b, by omega⟩

/-- With the allocations succeeding, `pipewire__module_init` is its port check and what
follows, entered with `res` at 0. -/
theorem module_init_eq_source (env : InitEnv) (args : Props) (hc : env.calloc_ok = true)
    (ha : env.args = some args) (hs : env.stream_props_ok = true) :
    pipewire__module_init env =
      module_init_source env
        { Impl.zero with props := some args, stream_props := some [] }
        (module_init_props env args)
        (module_init_stream_props env (module_init_props env args) []) 0 := by
  simp only [pipewire__module_init, hc, ha, hs, Bool.not_true, Bool.false_eq_true, if_true,
    if_false]

/-- C12: the port is the configured `source.port` value `v` reduced modulo 65536.  With
the allocations succeeding and every `errno` positive, the initialisation takes its
invalid-port exit (module state destroyed, `res` still 0) exactly when
`v mod 65536 = 0`.  A module left alive stores `v mod 65536`, resolved its address for
that port, and, the resolver putting the port it is given into the address, every start
that does not fail binds an address with port `v mod 65536`.  For `v` above 65535 that
is not `v`. -/
theorem source_port_reduced_mod_65536 (env : InitEnv) (args : Props) (v : Nat)
    (hc : env.calloc_ok = true) (ha : env.args = some args)
    (hs : env.stream_props_ok = true) (herr : env.errno_pos)
    (hv : pw_properties_get_uint32 env.atou32 args "source.port" DEFAULT_SOURCE_PORT = v) :
    (((pipewire__module_init env).ret = 0 ∧ (pipewire__module_init env).impl = none) ↔
      v % 65536 = 0) ∧
    (∀ impl, (pipewire__module_init env).impl = some impl →
      impl.src_port = v % 65536 ∧
      impl.src_addr = (env.net_parse_address (source_ip_text args) (v % 65536)).2.1 ∧
      (env.resolver_keeps_port →
        impl.src_addr.port = some (v % 65536) ∧
        ∀ (h : Host) (senv : SysEnv), senv.errno_pos →
          0 ≤ (stream_start ⟨impl, h⟩ senv).2 →
          ∃ a : SockAddr,
            (stream_start ⟨impl, h⟩ senv).1.host.calls.filter Call.is_bind =
              h.calls.filter Call.is_bind ++ [Call.bind senv.socket_ret a impl.src_len] ∧
            a.port = some (v % 65536))) ∧
    (65535 < v → v % 65536 ≠ v) := by
  have hport : pw_properties_get_uint32 env.atou32 (module_init_props env args) "source.port"
      DEFAULT_SOURCE_PORT = v := by
    rw [← hv]
    unfold pw_properties_get_uint32
    rw [module_init_props_get env args _ (by decide) (by decide) (by decide) (by decide)]
  have hip : source_ip_text (module_init_props env args) = source_ip_text args := by
    unfold source_ip_text
    rw [module_init_props_get env args _ (by decide) (by decide) (by decide) (by decide)]
  obtain ⟨hiff, halive⟩ := module_init_source_port env
    { Impl.zero with props := some args, stream_props := some [] }
    (module_init_props env args)
    (module_init_stream_props env (module_init_props env args) []) herr
  rw [hport, hip] at halive
  rw [hport] at hiff
  rw [module_init_eq_source env args hc ha hs]
  refine ⟨hiff, ?_, ?_⟩
  · intro impl himpl
    obtain ⟨hp, hsa, hres⟩ := halive impl himpl
    refine ⟨hp, hsa, ?_⟩
    intro hkeep
    have hprt : impl.src_addr.port = some (v % 65536) := by
      rw [hsa]
      exact hkeep _ _ hres
    refine ⟨hprt, ?_⟩
    intro h senv hserr hok
    have hidle : (World.mk impl h).impl.source = none := by
      have := module_init_alive env impl (by rw [module_init_eq_source env args hc ha hs]; exact himpl)
      exact this.1
    obtain ⟨a, h1, h2⟩ := stream_start_bind_port ⟨impl, h⟩ senv hidle hserr hok
    exact ⟨a, h1, by rw [h2]; exact hprt⟩
  · intro hbig
    have : v % 65536 < 65536 := Nat.mod_lt _ (by decide)
    omega

/-- The resolver of the example runtime puts the port it is given into the address. -/
theorem good_resolver_keeps_port (args : Props) : (InitEnv.good args).resolver_keeps_port := by
  intro str port h
  simp only [InitEnv.good] at h ⊢
  split_ifs at h ⊢
  · rfl
  · rfl
  · rfl
  · simp [EINVAL] at h

/-- The value 72516 is accepted, stored as 6980, and a start binds port 6980; the value
65536 is rejected like 0. -/
theorem source_port_reduced_mod_65536_witness :
    (loaded [("source.port", "72516")]).src_port = 6980 ∧
    (∃ a : SockAddr,
      (stream_start ⟨loaded [("source.port", "72516")], Host.empty⟩ SysEnv.ok).1.host.calls.filter
          Call.is_bind =
        Host.empty.calls.filter Call.is_bind ++
          [Call.bind SysEnv.ok.socket_ret a (loaded [("source.port", "72516")]).src_len] ∧
      a.port = some (72516 % 65536)) ∧
    ((pipewire__module_init (InitEnv.good [("source.port", "65536")])).ret = 0 ∧
      (pipewire__module_init (InitEnv.good [("source.port", "65536")])).impl = none) :=
  have h := (source_port_reduced_mod_65536 (InitEnv.good [("source.port", "72516")])
      [("source.port", "72516")] 72516 rfl rfl rfl (by decide) (by decide)).2.1
      (loaded [("source.port", "72516")]) (by decide)
  ⟨h.1,
   (h.2.2 (good_resolver_keeps_port _)).2 Host.empty SysEnv.ok (by decide) (by decide),
   (source_port_reduced_mod_65536 (InitEnv.good [("source.port", "65536")])
      [("source.port", "65536")] 65536 rfl rfl rfl (by decide) (by decide)).1.2 (by decide)⟩

/-! ## Bind policy of `make_socket` -/

/-- In the 240.0.0.0/4 range the test of line 225 holds, so `make_socket` issues a group
join there; when the kernel refuses it, `make_socket` fails. -/
theorem make_socket_class_e_fails (port a salen : Nat) (ifname : Option String)
    (env : SysEnv) (ha : a < 2 ^ 32) (he : a / 2 ^ 28 = 15) (herr : env.errno_pos)
    (hjoin : env.join_ret < 0) :
    (make_socket (.in4 port a) salen ifname env).ret < 0 := by
  by_contra hcon
  have hok : 0 ≤ (make_socket (.in4 port a) salen ifname env).ret := by omega
  obtain ⟨_, heq⟩ := make_socket_ok_policy (.in4 port a) salen ifname env herr hok
  have hc : (a &&& ipv4_mcast_mask) = ipv4_mcast_mask :=
    (ipv4_mcast_test_iff a ha).mpr (by omega)
  rw [heq] at hcon
  unfold make_socket_policy at hcon
  simp only at hcon
  rw [if_pos hc] at hcon
  exact hcon (make_socket_finish_neg _ _ _ _ _ _ herr (Or.inl hjoin))

/-- C3: for every resolved IPv4 or IPv6 address and every successful `make_socket` call,
the kernel refusing a group join for an address that is not multicast and every `errno`
being positive.  For a unicast address no group join is issued, the address is rewritten
to the wildcard address of its family with the port unchanged, and that is what `bind`
receives.  For a multicast address exactly one join is issued, for that address and the
resolved interface index (0 when no interface is named or the lookup fails), and `bind`
receives the address as given. -/
theorem make_socket_bind_policy (sa : SockAddr) (salen : Nat) (ifname : Option String)
    (env : SysEnv)
    (hsa : sa.resolved)
    (herr : env.errno_pos)
    (hkernel : env.rejects_join_of sa)
    (hok : 0 ≤ (make_socket sa salen ifname env).ret) :
    (make_socket sa salen ifname env).ret = env.socket_ret ∧
    (spec_is_multicast sa = false →
      (make_socket sa salen ifname env).sa = wildcard_of sa ∧
      (wildcard_of sa).port = sa.port ∧
      (make_socket sa salen ifname env).calls.filter Call.is_join = [] ∧
      (make_socket sa salen ifname env).calls.filter Call.is_bind =
        [Call.bind env.socket_ret (wildcard_of sa) salen]) ∧
    (spec_is_multicast sa = true →
      (make_socket sa salen ifname env).sa = sa ∧
      (make_socket sa salen ifname env).calls.filter Call.is_join =
        spec_join env.socket_ret sa (spec_ifindex ifname env) ∧
      (make_socket sa salen ifname env).calls.filter Call.is_bind =
        [Call.bind env.socket_ret sa salen]) := by
  have key : (make_socket sa salen ifname env).ret = env.socket_ret ∧
      (spec_is_multicast sa = false →
        (make_socket sa salen ifname env).sa = wildcard_of sa ∧
        (make_socket sa salen ifname env).calls.filter Call.is_join = [] ∧
        (make_socket sa salen ifname env).calls.filter Call.is_bind =
          [Call.bind env.socket_ret (wildcard_of sa) salen]) ∧
      (spec_is_multicast sa = true →
        (make_socket sa salen ifname env).sa = sa ∧
        (make_socket sa salen ifname env).calls.filter Call.is_join =
          spec_join env.socket_ret sa (spec_ifindex ifname env) ∧
        (make_socket sa salen ifname env).calls.filter Call.is_bind =
          [Call.bind env.socket_ret sa salen]) := by
    cases sa with
    | other f => exact absurd hsa (by simp [SockAddr.resolved])
    | in6 port flow a scope =>
      exact make_socket_policy_outside_class_e _ salen ifname env trivial herr hok
    | in4 port a =>
      have ha : a < 2 ^ 32 := hsa
      refine make_socket_policy_outside_class_e _ salen ifname env ⟨ha, fun he => ?_⟩ herr hok
      have hs : spec_is_multicast (.in4 port a) = false := by
        simp only [spec_is_multicast, beq_eq_false_iff_ne]
        omega
      have := make_socket_class_e_fails port a salen ifname env ha he herr (hkernel hs)
      omega
  obtain ⟨h1, h2, h3⟩ := key
  refine ⟨h1, fun hs => ?_, h3⟩
  obtain ⟨a, b, c⟩ := h2 hs
  refine ⟨a, ?_, b, c⟩
  cases sa <;> rfl

/-- Two successful calls.  For 10.0.0.5 no join is issued and `bind` receives
0.0.0.0:6980; for 239.1.1.1 on `eth0` (interface index 3) the group is joined on index 3
and `bind` receives 239.1.1.1:6980. -/
theorem make_socket_bind_policy_witness :
    (make_socket addr_10_0_0_5 16 none SysEnv.join_refused).calls.filter Call.is_join = [] ∧
    (make_socket addr_10_0_0_5 16 none SysEnv.join_refused).calls.filter Call.is_bind =
      [Call.bind 5 (.in4 6980 INADDR_ANY) 16] ∧
    (make_socket addr_239_1_1_1 16 (some "eth0") SysEnv.ok).calls.filter Call.is_join =
      [Call.ip_add_membership 5 0xef010101 3] ∧
    (make_socket addr_239_1_1_1 16 (some "eth0") SysEnv.ok).calls.filter Call.is_bind =
      [Call.bind 5 addr_239_1_1_1 16] :=
  have hu := (make_socket_bind_policy addr_10_0_0_5 16 none SysEnv.join_refused (by decide)
    (by decide) (by decide) (by decide)).2.1 (by decide)
  have hm := (make_socket_bind_policy addr_239_1_1_1 16 (some "eth0") SysEnv.ok (by decide)
    (by decide) (by decide) (by decide)).2.2 (by decide)
  ⟨hu.2.2.1, hu.2.2.2, hm.2.1, hm.2.2⟩

end VbanRecv
